import Mathlib

/-!
# Call session controller of telepathy-ring (`src/ring-call-channel.c`)

A shallow embedding of the per-call state machine of `RingCallChannel`:
the private structure becomes a record, every C function becomes a pure
function from a session to the session afterwards together with the list of
effects it performed on its collaborators (call service, tone player,
conference channel, D-Bus observers), in program order.

Pointers are identities (`Nat`) wrapped in `Option` (`none` is `NULL`),
`uint8_t` fields are naturals below 256, `int` arguments are integers.
Reference counting, logging and D-Bus marshalling are not modelled.
-/

namespace Ring

/-! ## Identities and constants -/

abbrev ModemRequest := Nat
abbrev ModemCall := Nat
abbrev TpHandle := Nat
abbrev RingConferenceChannel := Nat

/-- Backend call states (`ModemCallState` of `modem/call.h`). -/
inductive ModemCallState where
  | INVALID | ACTIVE | HELD | DIALING | ALERTING | INCOMING | WAITING | DISCONNECTED
  deriving DecidableEq, Repr

/-- Error codes of the `TP_ERROR` domain used by this file. -/
inductive TpError where
  | INVALID_ARGUMENT | NOT_AVAILABLE | DISCONNECTED
  deriving DecidableEq, Repr

def TP_CALL_STATE_ACTIVE : Nat := 5
def TP_CALL_STATE_ENDED : Nat := 6

def TP_CALL_STATE_CHANGE_REASON_PROGRESS_MADE : Nat := 1
def TP_CALL_STATE_CHANGE_REASON_USER_REQUESTED : Nat := 2
def TP_CALL_STATE_CHANGE_REASON_INVALID_CONTACT : Nat := 6
def TP_CALL_STATE_CHANGE_REASON_INTERNAL_ERROR : Nat := 9

def TP_LOCAL_HOLD_STATE_UNHELD : Nat := 0
def TP_LOCAL_HOLD_STATE_HELD : Nat := 1
def TP_LOCAL_HOLD_STATE_PENDING_HOLD : Nat := 2
def TP_LOCAL_HOLD_STATE_PENDING_UNHOLD : Nat := 3

def TP_LOCAL_HOLD_STATE_REASON_NONE : Nat := 0
def TP_LOCAL_HOLD_STATE_REASON_REQUESTED : Nat := 1
def TP_LOCAL_HOLD_STATE_REASON_RESOURCE_NOT_AVAILABLE : Nat := 2

def TP_CHANNEL_GROUP_CHANGE_REASON_NONE : Nat := 0
def TP_CHANNEL_GROUP_CHANGE_REASON_BUSY : Nat := 3
def TP_CHANNEL_GROUP_CHANGE_REASON_INVITED : Nat := 4
def TP_CHANNEL_GROUP_CHANGE_REASON_SEPARATED : Nat := 11

def TP_CALL_MEMBER_FLAG_RINGING : Nat := 1
def TP_CALL_MEMBER_FLAG_HELD : Nat := 2

def TP_ANONYMITY_MODE_CLIENT_INFO : Nat := 1
def TP_ANONYMITY_MODE_SHOW_CLIENT_INFO : Nat := 2

def MODEM_CLIR_OVERRIDE_DEFAULT : Nat := 0
def MODEM_CLIR_OVERRIDE_ENABLED : Nat := 1
def MODEM_CLIR_OVERRIDE_DISABLED : Nat := 2

/-- A `GError` as far as this file looks at it: its message and the
domain-qualified name `modem_error_fqn` derives from it. -/
structure GError where
  message : String
  fqn : String
  deriving DecidableEq, Repr

/-! ## Session state -/

/-- The `release` block of the private structure. -/
structure Release where
  message : Option String
  actor : TpHandle
  reason : Nat
  causetype : Nat
  cause : Nat
  deriving DecidableEq, Repr

/-- The `hold` block of the private structure: three `uint8_t` fields. -/
structure Hold where
  state : Nat
  reason : Nat
  requested : Nat
  deriving DecidableEq, Repr

/-- One call session: `RingCallChannel` with its private structure and the
part of the base channel it reads (`requested`, target and self handle,
call state). -/
structure RingCallChannel where
  call_instance : Option ModemCall
  anon_modes : Nat
  dial2nd : Option String
  peer_handle : TpHandle
  peer_flags : Nat
  accepted : Option String
  creating_call : Option ModemRequest
  release : Release
  member_conference : Option RingConferenceChannel
  state : ModemCallState
  released : Bool
  shutting_down : Bool
  call_instance_seen : Bool
  originating : Bool
  terminating : Bool
  hold : Hold
  control : Option ModemRequest
  playing : Nat
  requests : Option (List ModemRequest)
  is_requested : Bool
  target_handle : TpHandle
  self_handle : TpHandle
  call_state : Nat
  deriving DecidableEq, Repr

/-- Everything the session does to its collaborators, in program order. -/
inductive Effect where
  | set_state (state : Nat) (actor : TpHandle) (reason : Nat)
      (dbus_reason : String) (message : String)
  | update_member_flags (handle : TpHandle) (flags : Nat) (actor : TpHandle)
      (reason : Nat)
  | channel_removed (conference : RingConferenceChannel) (message : Option String)
      (actor : TpHandle) (reason : Nat)
  | tones_stop (source : Nat)
  | request_cancel (request : ModemRequest)
  | request_release (ci : ModemCall)
  | request_dial (number : String) (clir : Nat)
  | request_hold (ci : Option ModemCall) (hold : Bool)
  | request_split (ci : Option ModemCall)
  | request_answer (ci : ModemCall)
  | send_dtmf (ci : ModemCall) (digits : String)
  | hold_state_changed (hold : Nat) (reason : Nat)
  | return_from_request_hold
  | return_error (code : TpError) (message : String)
  | parent_hangup (reason : Nat) (detailed_reason : String) (message : Option String)
  | parent_close
  deriving DecidableEq, Repr

/-- The collaborators whose code is outside this file, as far as the session
only asks them questions: address resolver, cause mapping, error
construction, tone player queries and message formatting. -/
structure Env where
  inspect_contact : TpHandle → Option String
  is_valid_address : Option String → Bool
  split_address : String → Nat → String × Option String × Nat
  release_reason : Nat → Nat → Nat
  error_reason : GError → Nat
  new_error : Nat → Nat → GError
  event_tone : ModemCallState → Nat → Nat → Int
  error_tone : GError → Int
  TONES_EVENT_RINGING : Int
  TONES_EVENT_RADIO_PATH_ACK : Int
  TONES_EVENT_DROPPED : Int
  tones_is_playing : Nat → Nat
  tones_playing_event : Nat → Int
  tones_start_full : Int → Int → Nat → Nat
  dtmf_accepted : String → Bool
  state_name : ModemCallState → String
  dial_failed_debug : Nat → GError → String
  mo_release_debug : Nat → GError → Nat → Nat → String

/-- A function of the session: the session afterwards and the effects
performed, oldest first. -/
abbrev Step := RingCallChannel × List Effect

/-- Run `f` on the session `x` left behind, appending its effects. -/
def Step.andThen (x : Step) (f : RingCallChannel → Step) : Step :=
  ((f x.1).1, x.2 ++ (f x.1).2)

/-! ## Collaborators that change the session -/

/-- The function `ring_member_channel_left`: forget the conference. -/
def ring_member_channel_left (s : RingCallChannel) : RingCallChannel :=
  match s.member_conference with
  | some _ => { s with member_conference := none }
  | none => s

/-- Modelled from the spec: `ring_conference_channel_emit_channel_removed`
is defined in the conference channel, outside these sources. Going by the
comment at each of its call sites ("above emit calls
ring_member_channel_left()") and by the spec's leave protocol, it reports the
removal to the conference and calls `ring_member_channel_left` on the
member before it returns. -/
def ring_conference_channel_emit_channel_removed (s : RingCallChannel)
    (conference : RingConferenceChannel) (message : Option String)
    (actor : TpHandle) (reason : Nat) : Step :=
  (ring_member_channel_left s, [Effect.channel_removed conference message actor reason])

/-- Modelled from the spec: `tp_base_call_channel_set_state` belongs to the
base class; it stores the externally visible call state, which
`tp_base_call_channel_get_state` reads back, and reports the transition. -/
def tp_base_call_channel_set_state (s : RingCallChannel) (state : Nat)
    (actor : TpHandle) (reason : Nat) (dbus_reason message : String) : Step :=
  ({ s with call_state := state }, [Effect.set_state state actor reason dbus_reason message])

/-! ## Request queue -/

/-- The function `ring_call_channel_queue_request`; `g_queue_push_tail` on a
`NULL` queue fails its precondition check and does nothing. -/
def ring_call_channel_queue_request (s : RingCallChannel)
    (request : Option ModemRequest) : RingCallChannel :=
  match request with
  | some r => { s with requests := s.requests.map (fun q => q ++ [r]) }
  | none => s

/-- The function `ring_call_channel_dequeue_request`; `g_queue_remove`
removes the first entry holding the request. -/
def ring_call_channel_dequeue_request (s : RingCallChannel)
    (request : Option ModemRequest) : RingCallChannel :=
  match request with
  | some r => { s with requests := s.requests.map (fun q => q.erase r) }
  | none => s

/-! ## Tones -/

/-- The function `ring_call_channel_play_tone`. The `if (1) return;` of the
source ("no tones so far") is kept as the second test. -/
def ring_call_channel_play_tone (env : Env) (s : RingCallChannel)
    (tone : Int) (volume : Int) (duration : Nat) : RingCallChannel :=
  if s.shutting_down then s
  else if (1 : Nat) ≠ 0 then s
  else if (0 ≤ tone ∧ env.tones_is_playing 0 = 0) ∨ s.playing ≠ 0 then
    { s with playing := env.tones_start_full tone volume duration }
  else s

/-- The library call `g_object_get (self, "hold-state", &hold, NULL)` of
`ring_call_channel_play_error_tone`. `ring_call_channel_class_init` installs
no property of that name and `ring_call_channel_get_property` has no case
for it: GLib finds no such property, warns and leaves the variable at the
value `initial` it held before the call. -/
def get_hold_state_property (_s : RingCallChannel) (initial : Nat) : Nat :=
  initial

/-- The function `ring_call_channel_play_error_tone`. -/
def ring_call_channel_play_error_tone (env : Env) (s : RingCallChannel)
    (state : ModemCallState) (causetype cause : Nat) : RingCallChannel :=
  match s.call_instance with
  | none => s
  | some _ =>
    let hold := get_hold_state_property s TP_LOCAL_HOLD_STATE_UNHELD
    if hold ≠ TP_LOCAL_HOLD_STATE_UNHELD ∧ hold ≠ TP_LOCAL_HOLD_STATE_PENDING_UNHOLD then
      ring_call_channel_play_tone env s env.TONES_EVENT_DROPPED (-3) 1200
    else
      ring_call_channel_play_tone env s (env.event_tone state causetype cause) 0 5000

/-! ## Release protocol -/

/-- The function `ring_call_channel_released`. -/
def ring_call_channel_released (s : RingCallChannel) (actor : TpHandle)
    (reason : Nat) (message : Option String) (error : Option GError)
    (debug : Option String) : Step :=
  if s.released then (s, [])
  else
    let s1 := { s with released := true }
    let dbus_error : Option String := error.map GError.fqn
    let removed : Step :=
      match s1.member_conference with
      | some conference =>
        ring_conference_channel_emit_channel_removed s1 conference message actor reason
      | none => (s1, [])
    removed.andThen fun s2 =>
      if s2.call_state ≠ TP_CALL_STATE_ENDED then
        tp_base_call_channel_set_state s2 TP_CALL_STATE_ENDED actor
          (if error.isNone then TP_CALL_STATE_CHANGE_REASON_PROGRESS_MADE
            else TP_CALL_STATE_CHANGE_REASON_INTERNAL_ERROR)
          (dbus_error.getD "") (debug.getD "")
      else (s2, [])

/-- The function `on_modem_call_state_mo_release`. The source guards the
network-cause branch with the constant `1`; the other branch is kept as
written. -/
def on_modem_call_state_mo_release (env : Env) (s : RingCallChannel)
    (causetype cause : Nat) : Step :=
  let error := env.new_error causetype cause
  let actor := s.release.actor
  if actor = 0 then
    if (1 : Nat) ≠ 0 then
      let reason := env.release_reason causetype cause
      let details : Bool := causetype ≠ 0 && cause ≠ 0 &&
        reason ≠ TP_CHANNEL_GROUP_CHANGE_REASON_BUSY &&
        reason ≠ TP_CHANNEL_GROUP_CHANGE_REASON_NONE
      ring_call_channel_released s actor reason (some error.message)
        (if details then some error else none)
        (some (env.mo_release_debug reason error causetype cause))
    else
      ring_call_channel_released s s.self_handle 0 (some "") none
        (some (env.mo_release_debug 0 error causetype cause))
  else
    ring_call_channel_released s actor s.release.reason s.release.message none
      (some (env.mo_release_debug s.release.reason error causetype cause))

/-! ## Teardown -/

/-- The function `ring_call_channel_shutdown_modem`. -/
def ring_call_channel_shutdown_modem (s : RingCallChannel)
    (message : Option String) : Step :=
  let s1 := { s with shutting_down := true }
  let e1 : List Effect := if s1.playing ≠ 0 then [Effect.tones_stop s1.playing] else []
  let removed : Step :=
    match s1.member_conference with
    | some conference =>
      ring_conference_channel_emit_channel_removed s1 conference message
        s1.release.actor s1.release.reason
    | none => (s1, [])
  let s2 := removed.1
  let e2 := removed.2
  let e3 : List Effect :=
    match s2.requests with
    | some q => q.map Effect.request_cancel
    | none => []
  let s3 := { s2 with requests := none }
  match s3.call_instance with
  | some ci =>
    let s4 :=
      if s3.release.message.isNone then
        { s3 with release := { s3.release with message := message } }
      else s3
    (s4, e1 ++ e2 ++ e3 ++ [Effect.request_release ci])
  | none =>
    match s3.creating_call with
    | some r => ({ s3 with creating_call := none }, e1 ++ e2 ++ e3 ++ [Effect.request_cancel r])
    | none => (s3, e1 ++ e2 ++ e3)

/-- The function `ring_call_channel_hangup`: teardown, then the parent
class's `hangup`, recorded as an effect. -/
def ring_call_channel_hangup (s : RingCallChannel) (reason : Nat)
    (detailed_reason : String) (message : Option String) : Step :=
  (ring_call_channel_shutdown_modem s message).andThen fun s1 =>
    (s1, [Effect.parent_hangup reason detailed_reason message])

/-- The function `ring_call_channel_close`: teardown, then the parent
class's `close`, recorded as an effect. -/
def ring_call_channel_close (s : RingCallChannel) : Step :=
  (ring_call_channel_shutdown_modem s (some "Channel closed")).andThen fun s1 =>
    (s1, [Effect.parent_close])

/-- The function `ring_call_channel_stopped_playing`, the tone player's
completion callback for the tone `source`. -/
def ring_call_channel_stopped_playing (s : RingCallChannel) (source : Nat) : Step :=
  if s.playing = source then
    let s1 := { s with playing := 0 }
    match s1.call_instance with
    | none => ring_call_channel_close s1
    | some _ => (s1, [])
  else (s, [])

/-- The function `ring_call_channel_set_call_instance`, also reached through
the `call-instance` property. -/
def ring_call_channel_set_call_instance (s : RingCallChannel)
    (ci : Option ModemCall) : Step :=
  if ci = s.call_instance then (s, [])
  else
    let s1 := if ci.isSome then { s with call_instance_seen := true } else s
    let s2 := { s1 with call_instance := ci }
    if ci.isNone ∧ s2.playing = 0 then ring_call_channel_close s2 else (s2, [])

/-! ## Peer flags, DTMF and the state handlers -/

/-- The function `ring_call_channel_set_peer_flags`. -/
def ring_call_channel_set_peer_flags (s : RingCallChannel) (flag : Nat)
    (set : Bool) : Step :=
  let flags := if set then s.peer_flags ||| flag else s.peer_flags &&& (flag ^^^ (2 ^ 32 - 1))
  if flags = s.peer_flags then (s, [])
  else
    (s, [Effect.update_member_flags s.peer_handle s.peer_flags s.peer_handle
      TP_CALL_STATE_CHANGE_REASON_USER_REQUESTED])

/-- The function `ring_call_channel_send_dialstring`: the session
afterwards, the effects, and the error if it failed. The arguments `id`,
`duration` and `pause` are only logged by the source. -/
def ring_call_channel_send_dialstring (env : Env) (s : RingCallChannel)
    (id : Nat) (dialstring : String) (duration pause : Nat) :
    Step × Option (TpError × String) :=
  match s.call_instance with
  | none => ((s, []), some (TpError.NOT_AVAILABLE, "Channel is not connected"))
  | some ci =>
    if env.dtmf_accepted dialstring then ((s, [Effect.send_dtmf ci dialstring]), none)
    else ((s, []), some (TpError.INVALID_ARGUMENT, "Bad dial string"))

/-- The function `on_modem_call_state_incoming`. -/
def on_modem_call_state_incoming (s : RingCallChannel) : RingCallChannel :=
  if !s.terminating then { s with terminating := true } else s

/-- The function `on_modem_call_state_dialing`. -/
def on_modem_call_state_dialing (s : RingCallChannel) : RingCallChannel :=
  if !s.originating then { s with originating := true } else s

/-- The function `on_modem_call_state_mo_alerting`. -/
def on_modem_call_state_mo_alerting (s : RingCallChannel) : Step :=
  ring_call_channel_set_peer_flags s TP_CALL_MEMBER_FLAG_RINGING true

/-- The function `on_modem_call_state_active`. -/
def on_modem_call_state_active (env : Env) (s : RingCallChannel) : Step :=
  let sent : Step :=
    match s.dial2nd with
    | some digits =>
      let r := (ring_call_channel_send_dialstring env s 1 digits 0 0).1
      ({ r.1 with dial2nd := none }, r.2)
    | none => (s, [])
  sent.andThen fun s1 =>
    let actor := if s1.is_requested then s1.target_handle else s1.self_handle
    tp_base_call_channel_set_state s1 TP_CALL_STATE_ACTIVE actor
      TP_CALL_STATE_CHANGE_REASON_USER_REQUESTED "" "call state change to active"

/-- The function `ring_call_channel_update_state`: first the tones, then the
handler of the state. -/
def ring_call_channel_update_state (env : Env) (s : RingCallChannel)
    (state : ModemCallState) (causetype cause : Nat) : Step :=
  let tones : Step :=
    match state with
    | .DIALING | .INCOMING | .WAITING | .ACTIVE =>
      (s, if s.playing ≠ 0 then [Effect.tones_stop s.playing] else [])
    | .ALERTING => (ring_call_channel_play_tone env s env.TONES_EVENT_RINGING 0 0, [])
    | .DISCONNECTED => (ring_call_channel_play_error_tone env s state causetype cause, [])
    | .INVALID =>
      (s, if s.playing ≠ 0 ∧ env.tones_playing_event s.playing < env.TONES_EVENT_RADIO_PATH_ACK ∧
            1200 < env.tones_is_playing s.playing
          then [Effect.tones_stop s.playing] else [])
    | .HELD => (s, [])
  tones.andThen fun s1 =>
    match state with
    | .DIALING => (on_modem_call_state_dialing s1, [])
    | .INCOMING => (on_modem_call_state_incoming s1, [])
    | .ALERTING => on_modem_call_state_mo_alerting s1
    | .WAITING => (s1, [])
    | .ACTIVE => on_modem_call_state_active env s1
    | .DISCONNECTED => on_modem_call_state_mo_release env s1 causetype cause
    | .INVALID | .HELD => (s1, [])

/-- The function `on_modem_call_state`, the backend's state notification. -/
def on_modem_call_state (env : Env) (s : RingCallChannel)
    (state : ModemCallState) : Step :=
  ring_call_channel_update_state env s state 0 0

/-! ## Originating and answering -/

def TP_ERROR_STR_INVALID_HANDLE : String := "org.freedesktop.Telepathy.Error.InvalidHandle"

/-- The preprocessor definition `RING_STR_EMPTY`: a `NULL` or empty string. -/
def RING_STR_EMPTY (str : Option String) : Bool :=
  match str with
  | none => true
  | some x => x.isEmpty

/-- What `ring_call_channel_create` hands back: the session and effects, the
request it returns and the error it has set. -/
structure Created where
  step : Step
  request : Option ModemRequest
  error : Option GError

/-- The function `ring_call_channel_create`. `dial` is what
`modem_call_request_dial` returns for the request issued. -/
def ring_call_channel_create (env : Env) (s : RingCallChannel)
    (dial : Option ModemRequest) : Created :=
  let destination := env.inspect_contact s.peer_handle
  if RING_STR_EMPTY destination then
    { step := (s, []), request := none,
      error := some { message := "Invalid handle", fqn := "" } }
  else
    let clir :=
      if s.anon_modes &&& TP_ANONYMITY_MODE_CLIENT_INFO ≠ 0 then MODEM_CLIR_OVERRIDE_ENABLED
      else if s.anon_modes &&& TP_ANONYMITY_MODE_SHOW_CLIENT_INFO ≠ 0 then
        MODEM_CLIR_OVERRIDE_DISABLED
      else MODEM_CLIR_OVERRIDE_DEFAULT
    let split := env.split_address (destination.getD "") clir
    let s1 := { s with dial2nd := split.2.1 }
    let s2 := if dial.isSome then { s1 with creating_call := dial } else s1
    { step := (s2, [Effect.request_dial split.1 split.2.2]), request := dial, error := none }

/-- The function `ring_call_channel_accept`. `dial` is the backend's answer
to a create-call request, `ci_state` the state of the call instance. The
result is `none` where the source dereferences a `NULL` error. -/
def ring_call_channel_accept (env : Env) (s : RingCallChannel)
    (dial : Option ModemRequest) (ci_state : ModemCallState) : Option Step :=
  if s.is_requested then
    let destination := env.inspect_contact s.target_handle
    if !env.is_valid_address destination then
      some (tp_base_call_channel_set_state s TP_CALL_STATE_ENDED 0
        TP_CALL_STATE_CHANGE_REASON_INVALID_CONTACT TP_ERROR_STR_INVALID_HANDLE
        "Invalid destination")
    else
      let c := ring_call_channel_create env s dial
      match c.request with
      | some _ => some c.step
      | none =>
        match c.error with
        | some error =>
          some (c.step.andThen fun s1 =>
            tp_base_call_channel_set_state s1 TP_CALL_STATE_ENDED 0
              TP_CALL_STATE_CHANGE_REASON_INVALID_CONTACT TP_ERROR_STR_INVALID_HANDLE
              error.message)
        | none => none
  else
    match s.call_instance with
    | none => some (s, [])
    | some ci =>
      if ci_state = ModemCallState.DISCONNECTED then some (s, [])
      else
        let s1 := if s.accepted.isNone then { s with accepted := some "Call accepted" } else s
        some (s1, [Effect.request_answer ci])

/-- The tail of `reply_to_modem_call_request_dial` taken when no call was
created: tone, reason, and the release protocol on behalf of the peer. -/
def dial_failed (env : Env) (s : RingCallChannel) (error : GError) : Step :=
  let s1 := ring_call_channel_play_tone env s (env.error_tone error) 0 4000
  let reason := env.error_reason error
  ring_call_channel_released s1 s1.peer_handle reason (some error.message) (some error)
    (some (env.dial_failed_debug reason error))

/-- The function `reply_to_modem_call_request_dial`. The result is `none`
where the source fails `g_assert(self->call_instance == NULL)` or
dereferences a `NULL` error. -/
def reply_to_modem_call_request_dial (env : Env) (s : RingCallChannel)
    (request : Option ModemRequest) (ci : Option ModemCall)
    (error : Option GError) : Option Step :=
  let s1 := if request = s.creating_call then { s with creating_call := none } else s
  match ci with
  | some c =>
    if s1.call_instance.isSome then none
    else
      some ((ring_call_channel_set_call_instance s1 (some c)).andThen fun s2 =>
        if s2.release.message.isNone then
          ring_call_channel_update_state env s2 ModemCallState.DIALING 0 0
        else (s2, [Effect.request_release c]))
  | none =>
    match error with
    | some e => some (dial_failed env s1 e)
    | none => none

/-! ## Hold state machine -/

/-- Conversion of an `int` to `uint8_t`. -/
def uint8 (x : Int) : Nat := (x % 256).toNat

/-- Conversion of an `int` to `unsigned`. -/
def uint32 (x : Int) : Nat := (x % 4294967296).toNat

/-- The library call `g_object_set (self, "hold-state", hold,
"hold-state-reason", reason, NULL)` of `ring_update_hold`.
`ring_call_channel_class_init` installs no property of either name,
`ring_call_channel_set_property` has no case for them and nothing else
assigns `priv->hold.state`: GLib finds no property `hold-state`, warns and
stores nothing. The session is returned as it was. -/
def set_hold_state_properties (s : RingCallChannel) (_hold _reason : Int) :
    RingCallChannel :=
  s

/-- The function `ring_update_hold`: the session and effects, and the
`int` it returns. -/
def ring_update_hold (s : RingCallChannel) (hold : Int) (reason : Int) : Step × Int :=
  let old := s.hold.state
  if uint32 hold = old then ((s, []), 0)
  else if hold = TP_LOCAL_HOLD_STATE_UNHELD then
    let reason :=
      if reason ≠ 0 then reason
      else if hold = s.hold.requested then TP_LOCAL_HOLD_STATE_REASON_REQUESTED
      else if old = TP_LOCAL_HOLD_STATE_PENDING_HOLD then
        TP_LOCAL_HOLD_STATE_REASON_RESOURCE_NOT_AVAILABLE
      else TP_LOCAL_HOLD_STATE_REASON_NONE
    let s1 := { s with hold := { s.hold with requested := uint8 (-1) } }
    ((set_hold_state_properties s1 hold reason,
      [Effect.hold_state_changed (uint32 hold) (uint32 reason)]), 0)
  else if hold = TP_LOCAL_HOLD_STATE_HELD then
    let reason :=
      if reason ≠ 0 then reason
      else if hold = s.hold.requested then TP_LOCAL_HOLD_STATE_REASON_REQUESTED
      else if old = TP_LOCAL_HOLD_STATE_PENDING_UNHOLD then
        TP_LOCAL_HOLD_STATE_REASON_RESOURCE_NOT_AVAILABLE
      else TP_LOCAL_HOLD_STATE_REASON_NONE
    let s1 := { s with hold := { s.hold with requested := uint8 (-1) } }
    ((set_hold_state_properties s1 hold reason,
      [Effect.hold_state_changed (uint32 hold) (uint32 reason)]), 0)
  else if hold = TP_LOCAL_HOLD_STATE_PENDING_HOLD ∨
      hold = TP_LOCAL_HOLD_STATE_PENDING_UNHOLD then
    ((set_hold_state_properties s hold reason,
      [Effect.hold_state_changed (uint32 hold) (uint32 reason)]), 0)
  else ((s, []), -1)

/-- The function `request_hold`. `backend` is the request that
`modem_call_request_hold` returns. -/
def request_hold (env : Env) (s : RingCallChannel) (hold : Bool)
    (backend : Option ModemRequest) : Step :=
  let expect := if hold then ModemCallState.ACTIVE else ModemCallState.HELD
  let state := if hold then TP_LOCAL_HOLD_STATE_HELD else TP_LOCAL_HOLD_STATE_UNHELD
  let next :=
    if hold then TP_LOCAL_HOLD_STATE_PENDING_HOLD else TP_LOCAL_HOLD_STATE_PENDING_UNHOLD
  match s.call_instance with
  | none => (s, [Effect.return_error TpError.DISCONNECTED "Channel is not connected"])
  | some ci =>
    if state = s.hold.state ∨ next = s.hold.state then
      ({ s with hold := { s.hold with reason := TP_LOCAL_HOLD_STATE_REASON_REQUESTED } },
        [Effect.return_from_request_hold])
    else if s.state ≠ expect then
      (s, [Effect.return_error TpError.NOT_AVAILABLE
        ("Invalid call state " ++ env.state_name s.state)])
    else if s.control.isSome then
      (s, [Effect.return_error TpError.NOT_AVAILABLE "Call control operation pending"])
    else
      let s1 := { s with control := backend }
      let s2 := ring_call_channel_queue_request s1 s1.control
      let s3 := { s2 with hold := { s2.hold with requested := state } }
      let u := (ring_update_hold s3 next TP_LOCAL_HOLD_STATE_REASON_REQUESTED).1
      (u.1, [Effect.return_from_request_hold, Effect.request_hold (some ci) hold] ++ u.2)

/-- The function `response_to_hold`, the backend's reply to a hold request.
The test `priv->hold.requested != -1` compares the `uint8_t` field, promoted
to `int`, with `-1`. -/
def response_to_hold (s : RingCallChannel) (request : Option ModemRequest)
    (error : Option GError) : Step :=
  let s1 := if s.control = request then { s with control := none } else s
  let s2 := ring_call_channel_dequeue_request s1 request
  let reverted : Step :=
    if error.isSome ∧ (s2.hold.requested : Int) ≠ -1 then
      let next := if s2.hold.requested ≠ 0 then TP_LOCAL_HOLD_STATE_UNHELD
        else TP_LOCAL_HOLD_STATE_HELD
      let u := (ring_update_hold s2 next
        TP_LOCAL_HOLD_STATE_REASON_RESOURCE_NOT_AVAILABLE).1
      ({ u.1 with hold := { u.1.hold with requested := uint8 (-1) } }, u.2)
    else (s2, [])
  reverted.andThen fun s3 => (ring_update_hold s3 s3.hold.requested 0).1

/-- The function `on_modem_call_on_hold`: the remote end put us on hold. -/
def on_modem_call_on_hold (s : RingCallChannel) (onhold : Bool) : Step :=
  ring_call_channel_set_peer_flags s TP_CALL_MEMBER_FLAG_HELD onhold

/-! ## Conference membership -/

/-- The function `on_modem_call_notify_multiparty`; `multiparty` is the
flag read from the call instance. -/
def on_modem_call_notify_multiparty (s : RingCallChannel) (multiparty : Bool) : Step :=
  match s.member_conference with
  | some conference =>
    if multiparty = false then
      ring_conference_channel_emit_channel_removed s conference
        (some "Conference call split") 0 TP_CHANNEL_GROUP_CHANGE_REASON_SEPARATED
    else (s, [])
  | none => (s, [])

/-- The function `ring_member_channel_joined`. -/
def ring_member_channel_joined (s : RingCallChannel)
    (conference : RingConferenceChannel) : Step :=
  match s.member_conference with
  | some old =>
    if old = conference then (s, [])
    else
      (ring_conference_channel_emit_channel_removed s old (some "Joined new conference")
        s.self_handle TP_CHANNEL_GROUP_CHANGE_REASON_INVITED).andThen fun s1 =>
          ({ s1 with member_conference := some conference }, [])
  | none => ({ s with member_conference := some conference }, [])

/-- The function `ring_member_channel_method_split`. `has_members` is what
`ring_conference_channel_has_members` reports for the session's conference,
the number of its members. -/
def ring_member_channel_method_split (s : RingCallChannel) (has_members : Nat) : Step :=
  match s.member_conference with
  | some _ =>
    if has_members ≤ 1 then (s, [Effect.request_hold s.call_instance false])
    else (s, [Effect.request_split s.call_instance])
  | none => (s, [Effect.return_error TpError.NOT_AVAILABLE "Not a member channel"])

/-- The function `ring_member_channel_can_become_member`: `none` is `TRUE`,
otherwise the error set. `iface` is `none` for a `NULL` pointer or an object
that is not a call channel; `can_join` is what `modem_call_can_join` answers
for the call instance and `ci_state` the state `modem_call_get_state`
reports for it. -/
def ring_member_channel_can_become_member (env : Env) (iface : Option RingCallChannel)
    (can_join : Bool) (ci_state : ModemCallState) : Option (TpError × String) :=
  match iface with
  | none => some (TpError.INVALID_ARGUMENT, "Member is not valid channel object")
  | some s =>
    if s.peer_handle = 0 then
      some (TpError.INVALID_ARGUMENT, "Member channel has no target")
    else if s.member_conference.isSome then
      some (TpError.INVALID_ARGUMENT, "Member channel is already in conference")
    else if s.call_instance.isNone then
      some (TpError.INVALID_ARGUMENT, "Member channel has no ongoing call")
    else if !can_join then
      some (TpError.NOT_AVAILABLE, "Member channel in state " ++ env.state_name ci_state)
    else none

/-! ## The session as a machine -/

/-- The entry points through which the control surface and the backend
drive a session, with the values the collaborators supply. -/
inductive Op where
  | accept (dial : Option ModemRequest) (ci_state : ModemCallState)
  | dial_reply (request : Option ModemRequest) (ci : Option ModemCall)
      (error : Option GError)
  | hangup (reason : Nat) (detailed_reason : String) (message : Option String)
  | close
  | update_state (state : ModemCallState) (causetype cause : Nat)
  | on_hold (onhold : Bool)
  | notify_multiparty (multiparty : Bool)
  | request_hold (hold : Bool) (backend : Option ModemRequest)
  | hold_reply (request : Option ModemRequest) (error : Option GError)
  | stopped_playing (source : Nat)
  deriving DecidableEq, Repr

/-- One entry point applied to a session; `none` where the source aborts. -/
def step (env : Env) (s : RingCallChannel) : Op → Option Step
  | .accept dial ci_state => ring_call_channel_accept env s dial ci_state
  | .dial_reply request ci error => reply_to_modem_call_request_dial env s request ci error
  | .hangup reason detailed_reason message =>
    some (ring_call_channel_hangup s reason detailed_reason message)
  | .close => some (ring_call_channel_close s)
  | .update_state state causetype cause =>
    some (ring_call_channel_update_state env s state causetype cause)
  | .on_hold onhold => some (on_modem_call_on_hold s onhold)
  | .notify_multiparty multiparty => some (on_modem_call_notify_multiparty s multiparty)
  | .request_hold hold backend => some (request_hold env s hold backend)
  | .hold_reply request error => some (response_to_hold s request error)
  | .stopped_playing source => some (ring_call_channel_stopped_playing s source)

/-- A sequence of entry points, oldest first, with the effects of all of
them; `none` as soon as one aborts. -/
def run (env : Env) (s : RingCallChannel) : List Op → Option Step
  | [] => some (s, [])
  | op :: ops =>
    match step env s op with
    | none => none
    | some r =>
      match run env r.1 ops with
      | none => none
      | some r2 => some (r2.1, r.2 ++ r2.2)

/-- A reported transition of the call state to Ended. -/
def Effect.isEnded : Effect → Bool
  | .set_state state _ _ _ _ => state == TP_CALL_STATE_ENDED
  | _ => false

/-- The triggers of the release protocol: a backend Disconnected
notification, a failed create-call reply, hangup and close. -/
def Op.isReleaseTrigger : Op → Bool
  | .update_state state _ _ => state == ModemCallState.DISCONNECTED
  | .dial_reply _ ci error => ci.isNone && error.isSome
  | .hangup _ _ _ => true
  | .close => true
  | _ => false

/-- Both the backend handle and the pending create request are set. -/
def bothSet (s : RingCallChannel) : Bool :=
  s.call_instance.isSome && s.creating_call.isSome

/-- Whether an entry point can be delivered to the session. The base class
takes `accept` on a locally requested session once, before any call
exists: here, while the session has neither a backend handle nor a pending
create request. A create-call reply answers the request that is pending.
Everything else can arrive at any time. -/
def Op.enabled (s : RingCallChannel) : Op → Bool
  | .accept _ _ => !s.is_requested || (s.call_instance.isNone && s.creating_call.isNone)
  | .dial_reply request _ _ => request.isSome && request == s.creating_call
  | _ => true

/-- A sequence of entry points each delivered while it is enabled; `none`
as soon as one is not enabled or aborts. -/
def runEnabled (env : Env) (s : RingCallChannel) : List Op → Option Step
  | [] => some (s, [])
  | op :: ops =>
    if op.enabled s then
      match step env s op with
      | none => none
      | some r =>
        match runEnabled env r.1 ops with
        | none => none
        | some r2 => some (r2.1, r.2 ++ r2.2)
    else none

/-- The two fields of the mutual exclusion are the same in both sessions. -/
def SameCall (s t : RingCallChannel) : Prop :=
  t.call_instance = s.call_instance ∧ t.creating_call = s.creating_call

/-- The reasons reported with the transitions to Ended among the effects,
in order. -/
def endedReasons (es : List Effect) : List Nat :=
  es.filterMap fun e =>
    match e with
    | .set_state state _ reason _ _ => if state = TP_CALL_STATE_ENDED then some reason else none
    | _ => none

/-- The acting parties reported with the transitions to Ended among the
effects, in order. -/
def endedActors (es : List Effect) : List TpHandle :=
  es.filterMap fun e =>
    match e with
    | .set_state state actor _ _ _ => if state = TP_CALL_STATE_ENDED then some actor else none
    | _ => none

/-- The release requests sent to the backend among the effects, in order. -/
def releaseRequests (es : List Effect) : List ModemCall :=
  es.filterMap fun e =>
    match e with
    | .request_release ci => some ci
    | _ => none

/-- The create-call requests sent to the backend among the effects. -/
def dialRequests (es : List Effect) : List (String × Nat) :=
  es.filterMap fun e =>
    match e with
    | .request_dial number clir => some (number, clir)
    | _ => none

/-! ## Concrete sessions and collaborators used to exercise the model -/

/-- A resolver that knows every handle but 0, a backend that accepts every
digit string, and a cause mapping that answers 0. -/
def env0 : Env :=
  { inspect_contact := fun h => if h = 0 then none else some "5551234"
    is_valid_address := fun d => !(RING_STR_EMPTY d)
    split_address := fun d c => (d, none, c)
    release_reason := fun _ _ => 0
    error_reason := fun _ => 6
    new_error := fun _ _ => { message := "released", fqn := "org.ofono.Error.Failed" }
    event_tone := fun _ _ _ => 0
    error_tone := fun _ => 0
    TONES_EVENT_RINGING := 70
    TONES_EVENT_RADIO_PATH_ACK := 67
    TONES_EVENT_DROPPED := 257
    tones_is_playing := fun _ => 0
    tones_playing_event := fun _ => 0
    tones_start_full := fun _ _ _ => 1
    dtmf_accepted := fun _ => true
    state_name := fun _ => "state"
    dial_failed_debug := fun _ _ => "Dial() failed"
    mo_release_debug := fun _ _ _ _ => "mo-release" }

/-- A session as construction leaves it: the private structure zeroed, the
construction properties `requested` and `peer` given, the call state the
base class starts in. -/
def fresh (requested : Bool) (peer : TpHandle) : RingCallChannel :=
  { call_instance := none, anon_modes := 0, dial2nd := none, peer_handle := peer
    peer_flags := 0, accepted := none, creating_call := none
    release := { message := none, actor := 0, reason := 0, causetype := 0, cause := 0 }
    member_conference := none, state := ModemCallState.INVALID, released := false
    shutting_down := false, call_instance_seen := false, originating := false
    terminating := false, hold := { state := 0, reason := 0, requested := 0 }
    control := none, playing := 0, requests := none, is_requested := requested
    target_handle := peer, self_handle := 1, call_state := 1 }

/-- An outgoing session with backend call 3 in state Active, unheld, with an
empty request queue. -/
def activeSession : RingCallChannel :=
  { fresh true 7 with
    call_instance := some 3, state := ModemCallState.ACTIVE, requests := some [] }

/-- The session after a hold request on the active session was accepted
with backend request 21. -/
def pendingHoldSession : RingCallChannel :=
  (request_hold env0 activeSession true (some 21)).1

/-- The active session as a member of conference 5. -/
def memberSession : RingCallChannel :=
  { activeSession with member_conference := some 5 }

/-- The collaborators of `env0` with a cause mapping that tells causes
apart: (1, 17) is busy, (1, 19) is no-answer, every other pair is an
error. -/
def env1 : Env :=
  { env0 with
    release_reason := fun causetype cause =>
      if causetype = 1 ∧ cause = 17 then 3
      else if causetype = 1 ∧ cause = 19 then 8
      else 6 }

/-- An incoming session with backend call 3, not yet accepted. -/
def incomingSession : RingCallChannel :=
  { fresh false 7 with call_instance := some 3 }

/-- A full outgoing call: accept, create-call reply with call 3, Active,
hangup, Disconnected. -/
def fullCallOps : List Op :=
  [Op.accept (some 11) ModemCallState.INVALID,
   Op.dial_reply (some 11) (some 3) none,
   Op.update_state ModemCallState.ACTIVE 0 0,
   Op.hangup 0 "" (some "bye"),
   Op.update_state ModemCallState.DISCONNECTED 0 0]

/-- The session and the effects after `fullCallOps` on a fresh outgoing session. -/
def fullCallResult : Step :=
  ({ fresh true 7 with
      call_instance := some 3, call_instance_seen := true, originating := true
      shutting_down := true, released := true, call_state := TP_CALL_STATE_ENDED
      release := { message := some "bye", actor := 0, reason := 0, causetype := 0, cause := 0 } },
    [Effect.request_dial "5551234" 0,
     Effect.set_state 5 7 2 "" "call state change to active",
     Effect.request_release 3,
     Effect.parent_hangup 0 "" (some "bye"),
     Effect.set_state 6 0 1 "" "mo-release"])

/-- The trace of an outgoing call that is created, dialled, answered, hung
up and disconnected: accept, create-call reply carrying call `c`, backend
state notifications Dialing and Active, hangup, backend state notification
Disconnected. The notifications arrive through `on_modem_call_state`, which
passes no cause. -/
def originateTrace (r : ModemRequest) (c : ModemCall) (st : ModemCallState)
    (error : Option GError) (reason : Nat) (detailed_reason : String)
    (message : Option String) : List Op :=
  [Op.accept (some r) st,
   Op.dial_reply (some r) (some c) error,
   Op.update_state ModemCallState.DIALING 0 0,
   Op.update_state ModemCallState.ACTIVE 0 0,
   Op.hangup reason detailed_reason message,
   Op.update_state ModemCallState.DISCONNECTED 0 0]

/-- The fresh outgoing session after accept: create request `r` pending,
second-stage digits `d` kept. -/
def sessionCreating (peer : TpHandle) (d : Option String) (r : ModemRequest) :
    RingCallChannel :=
  { fresh true peer with dial2nd := d, creating_call := some r }

/-- The session after the create-call reply delivered call `c`. -/
def sessionDialing (peer : TpHandle) (d : Option String) (c : ModemCall) :
    RingCallChannel :=
  { fresh true peer with
    dial2nd := d, call_instance := some c, call_instance_seen := true, originating := true }

/-- The session after the backend reported Active. -/
def sessionActive (peer : TpHandle) (c : ModemCall) : RingCallChannel :=
  { fresh true peer with
    call_instance := some c, call_instance_seen := true, originating := true
    call_state := TP_CALL_STATE_ACTIVE }

/-- The session after hangup with `message`. -/
def sessionHungUp (peer : TpHandle) (c : ModemCall) (message : Option String) :
    RingCallChannel :=
  { sessionActive peer c with
    shutting_down := true
    release := { message := message, actor := 0, reason := 0, causetype := 0, cause := 0 } }

/-! ## Call member registry (`src/base-call-channel.c`) -/

/-- A `RingCallMember` object as far as the registry looks at it: its
identity, the handle `ring_call_member_get_handle` answers and the flags
`ring_call_member_get_flags` answers. -/
structure RingCallMember where
  id : Nat
  handle : TpHandle
  flags : Nat
  deriving DecidableEq, Repr

/-- The `members` hash table of `RingBaseCallChannel`, from handle to member:
a list of entries with at most one entry for a handle. -/
abbrev Members := List (TpHandle × RingCallMember)

/-- What the registry does to its collaborators, in program order. -/
inductive BaseEffect where
  | update_member_flags (handle : TpHandle) (flags : Nat) (actor : TpHandle) (reason : Nat)
  | remove_member (handle : TpHandle) (actor : TpHandle) (reason : Nat)
  | member_shutdown (member : RingCallMember)
  | flags_changed_connected (member : RingCallMember)
  deriving DecidableEq, Repr

/-- The library function `g_hash_table_lookup`. -/
def g_hash_table_lookup (members : Members) (handle : TpHandle) : Option RingCallMember :=
  members.lookup handle

/-- The library function `g_hash_table_remove`. -/
def g_hash_table_remove (members : Members) (handle : TpHandle) : Members :=
  members.filter fun entry => entry.1 != handle

/-- The library function `g_hash_table_insert`: the entry replaces an
earlier one for the same handle. -/
def g_hash_table_insert (members : Members) (handle : TpHandle)
    (member : RingCallMember) : Members :=
  (handle, member) :: g_hash_table_remove members handle

/-- The function `ring_base_call_channel_get_member_from_handle`. -/
def ring_base_call_channel_get_member_from_handle (members : Members)
    (handle : TpHandle) : Option RingCallMember :=
  g_hash_table_lookup members handle

/-- The function `ring_base_call_channel_ensure_member_from_handle`: the
registry afterwards, the member returned and the effects. `created` is the
object `g_object_new` returns when a member has to be created. -/
def ring_base_call_channel_ensure_member_from_handle (members : Members)
    (handle : TpHandle) (created : RingCallMember) :
    Members × RingCallMember × List BaseEffect :=
  match g_hash_table_lookup members handle with
  | some m => (members, m, [])
  | none =>
    (g_hash_table_insert members handle created, created,
      [BaseEffect.update_member_flags created.handle created.flags 0
        TP_CALL_STATE_CHANGE_REASON_PROGRESS_MADE,
       BaseEffect.flags_changed_connected created])

/-- The function `ring_base_call_channel_remove_member`; `none` where the
source fails its `g_assert`. -/
def ring_base_call_channel_remove_member (members : Members)
    (member : RingCallMember) : Option (Members × List BaseEffect) :=
  if g_hash_table_lookup members member.handle = some member then
    some (g_hash_table_remove members member.handle,
      [BaseEffect.member_shutdown member,
       BaseEffect.remove_member member.handle 0 TP_CALL_STATE_CHANGE_REASON_PROGRESS_MADE])
  else none

/-- The member flag reports among the effects of the registry. -/
def flagReports (es : List BaseEffect) : List (TpHandle × Nat × TpHandle × Nat) :=
  es.filterMap fun e =>
    match e with
    | .update_member_flags handle flags actor reason => some (handle, flags, actor, reason)
    | _ => none

/-- The member removals reported among the effects of the registry. -/
def removalReports (es : List BaseEffect) : List (TpHandle × TpHandle × Nat) :=
  es.filterMap fun e =>
    match e with
    | .remove_member handle actor reason => some (handle, actor, reason)
    | _ => none

/-- A registry with members for the handles 7 and 9. -/
def members0 : Members :=
  [(7, { id := 1, handle := 7, flags := 0 }), (9, { id := 2, handle := 9, flags := 1 })]

/-- The fields of a session that only few entry points write: the stored
backend call state, the tone token and the hold block. -/
def core (s : RingCallChannel) : ModemCallState × Nat × Hold :=
  (s.state, s.playing, s.hold)

/-- A sequence of backend state notifications with their causes, oldest
first, delivered to `ring_call_channel_update_state`. -/
def notify (env : Env) (s : RingCallChannel) :
    List (ModemCallState × Nat × Nat) → Step
  | [] => (s, [])
  | n :: ns =>
    (ring_call_channel_update_state env s n.1 n.2.1 n.2.2).andThen fun s1 => notify env s1 ns

/-- The DTMF strings sent to the backend among the effects, in order, each
with the call it was sent on. -/
def dtmfSent (es : List Effect) : List (ModemCall × String) :=
  es.filterMap fun e =>
    match e with
    | .send_dtmf ci digits => some (ci, digits)
    | _ => none

/-- The transitions of the externally visible call state among the effects,
in order: the new state and the reason given. -/
def stateChanges (es : List Effect) : List (Nat × Nat) :=
  es.filterMap fun e =>
    match e with
    | .set_state state _ reason _ _ => some (state, reason)
    | _ => none

/-- An outgoing call that is created and answered, after which the client
asks to put it on hold. -/
def holdAfterActiveOps : List Op :=
  [Op.accept (some 11) ModemCallState.INVALID,
   Op.dial_reply (some 11) (some 3) none,
   Op.update_state ModemCallState.ACTIVE 0 0,
   Op.request_hold true (some 21)]

/-- An outgoing call that is created, rings at the peer and is then
released by the network with cause (1, 17). -/
def alertOps : List Op :=
  [Op.accept (some 11) ModemCallState.INVALID,
   Op.dial_reply (some 11) (some 3) none,
   Op.update_state ModemCallState.ALERTING 0 0,
   Op.update_state ModemCallState.DISCONNECTED 1 17]

/-- The session and the effects after `alertOps` on a fresh outgoing session. -/
def alertResult : Step :=
  ({ fresh true 7 with
      call_instance := some 3, call_instance_seen := true, originating := true
      released := true, call_state := TP_CALL_STATE_ENDED },
    [Effect.request_dial "5551234" 0,
     Effect.update_member_flags 7 0 7 2,
     Effect.set_state 6 0 1 "" "mo-release"])

/-- An outgoing call that is created and answered: accept, create-call
reply with call 3, backend state notification Active. -/
def answeredOps : List Op :=
  [Op.accept (some 11) ModemCallState.INVALID,
   Op.dial_reply (some 11) (some 3) none,
   Op.update_state ModemCallState.ACTIVE 0 0]

theorem play_tone_eq (env : Env) (s : RingCallChannel) (tone volume : Int) (duration : Nat) :
    ring_call_channel_play_tone env s tone volume duration = s := by
  unfold ring_call_channel_play_tone
  split <;> simp

theorem play_error_tone_eq (env : Env) (s : RingCallChannel) (state : ModemCallState)
    (causetype cause : Nat) :
    ring_call_channel_play_error_tone env s state causetype cause = s := by
  unfold ring_call_channel_play_error_tone
  split
  · rfl
  · dsimp only
    split <;> exact play_tone_eq _ _ _ _ _

theorem left_released (s : RingCallChannel) :
    (ring_member_channel_left s).released = s.released := by
  unfold ring_member_channel_left; split <;> rfl

/-- Ended transitions reported plus the latch before never exceed the latch after. -/
theorem released_count (s : RingCallChannel) (actor : TpHandle) (reason : Nat)
    (message : Option String) (error : Option GError) (debug : Option String) :
    (ring_call_channel_released s actor reason message error debug).2.countP Effect.isEnded
      + s.released.toNat
      ≤ (ring_call_channel_released s actor reason message error debug).1.released.toNat := by
  unfold ring_call_channel_released
  by_cases h : s.released = true
  · simp [h]
  · simp only [h]
    cases hc : s.member_conference <;>
      simp [Step.andThen, hc, ring_conference_channel_emit_channel_removed,
        ring_member_channel_left, tp_base_call_channel_set_state, Effect.isEnded] <;>
      split <;> simp_all [Effect.isEnded, List.countP_cons]

theorem countP_cancel (q : List ModemRequest) :
    (q.map Effect.request_cancel).countP Effect.isEnded = 0 := by
  induction q with
  | nil => rfl
  | cons a q ih => simp [List.countP_cons, Effect.isEnded, ih]

theorem shutdown_modem_released (s : RingCallChannel) (message : Option String) :
    (ring_call_channel_shutdown_modem s message).1.released = s.released ∧
    (ring_call_channel_shutdown_modem s message).2.countP Effect.isEnded = 0 := by
  unfold ring_call_channel_shutdown_modem
  cases hc : s.member_conference <;> cases hi : s.call_instance <;>
    cases hr : s.creating_call <;> cases hq : s.requests <;>
    simp [hc, hi, hr, hq, ring_conference_channel_emit_channel_removed,
      ring_member_channel_left, Effect.isEnded, List.countP_cons, countP_cancel, List.countP_append] <;>
    split <;> simp_all [Effect.isEnded]

theorem mo_release_count (env : Env) (s : RingCallChannel) (causetype cause : Nat) :
    (on_modem_call_state_mo_release env s causetype cause).2.countP Effect.isEnded
      + s.released.toNat
      ≤ (on_modem_call_state_mo_release env s causetype cause).1.released.toNat := by
  unfold on_modem_call_state_mo_release
  simp only
  split
  · split <;> exact released_count _ _ _ _ _ _
  · exact released_count _ _ _ _ _ _

/-- Every release trigger runs, and the Ended transitions it reports plus
the latch before never exceed the latch after. -/
theorem trigger_count (env : Env) (s : RingCallChannel) (op : Op)
    (h : op.isReleaseTrigger = true) :
    ∃ r, step env s op = some r ∧
      r.2.countP Effect.isEnded + s.released.toNat ≤ r.1.released.toNat := by
  cases op with
  | update_state state causetype cause =>
    have hs : state = ModemCallState.DISCONNECTED := by
      simpa [Op.isReleaseTrigger] using h
    subst hs
    refine ⟨_, rfl, ?_⟩
    simp only [ring_call_channel_update_state, Step.andThen, play_error_tone_eq,
      List.nil_append]
    exact mo_release_count env s causetype cause
  | dial_reply request ci error =>
    simp only [Op.isReleaseTrigger, Bool.and_eq_true, Option.isNone_iff_eq_none,
      Option.isSome_iff_exists] at h
    obtain ⟨hci, e, he⟩ := h
    subst hci he
    refine ⟨_, rfl, ?_⟩
    simp only [dial_failed, play_tone_eq]
    split
    · exact released_count _ _ _ _ _ _
    · exact released_count _ _ _ _ _ _
  | hangup reason detailed message =>
    refine ⟨_, rfl, ?_⟩
    have := shutdown_modem_released s message
    simp [ring_call_channel_hangup, Step.andThen, this.1, this.2, Effect.isEnded,
      List.countP_cons]
  | close =>
    refine ⟨_, rfl, ?_⟩
    have := shutdown_modem_released s (some "Channel closed")
    simp [ring_call_channel_close, Step.andThen, this.1, this.2, Effect.isEnded,
      List.countP_cons]
  | _ => simp [Op.isReleaseTrigger] at h

theorem run_triggers_count (env : Env) (ops : List Op) :
    ∀ s : RingCallChannel, (∀ op ∈ ops, op.isReleaseTrigger = true) →
    ∃ r, run env s ops = some r ∧
      r.2.countP Effect.isEnded + s.released.toNat ≤ r.1.released.toNat := by
  induction ops with
  | nil => intro s _; exact ⟨(s, []), rfl, by simp⟩
  | cons op ops ih =>
    intro s h
    obtain ⟨r, hr, hc⟩ := trigger_count env s op (h op (List.mem_cons_self _ _))
    obtain ⟨r2, hr2, hc2⟩ := ih r.1 (fun o ho => h o (List.mem_cons_of_mem _ ho))
    refine ⟨(r2.1, r.2 ++ r2.2), by simp [run, hr, hr2], ?_⟩
    simp only [List.countP_append]
    omega

theorem SameCall.refl (s : RingCallChannel) : SameCall s s := ⟨rfl, rfl⟩

theorem SameCall.trans {s t u : RingCallChannel} (h1 : SameCall s t) (h2 : SameCall t u) :
    SameCall s u := ⟨h2.1.trans h1.1, h2.2.trans h1.2⟩

theorem left_sameCall (s : RingCallChannel) : SameCall s (ring_member_channel_left s) := by
  unfold ring_member_channel_left; split <;> exact ⟨rfl, rfl⟩

theorem released_sameCall (s : RingCallChannel) (actor : TpHandle) (reason : Nat)
    (message : Option String) (error : Option GError) (debug : Option String) :
    SameCall s (ring_call_channel_released s actor reason message error debug).1 := by
  unfold ring_call_channel_released
  by_cases h : s.released = true
  · simp [h, SameCall]
  · simp only [h]
    cases hc : s.member_conference <;>
      simp [Step.andThen, hc, ring_conference_channel_emit_channel_removed,
        ring_member_channel_left, tp_base_call_channel_set_state, SameCall] <;>
      split <;> simp_all

theorem mo_release_sameCall (env : Env) (s : RingCallChannel) (causetype cause : Nat) :
    SameCall s (on_modem_call_state_mo_release env s causetype cause).1 := by
  unfold on_modem_call_state_mo_release
  simp only
  split
  · split <;> exact released_sameCall _ _ _ _ _ _
  · exact released_sameCall _ _ _ _ _ _

theorem set_peer_flags_fst (s : RingCallChannel) (flag : Nat) (set : Bool) :
    (ring_call_channel_set_peer_flags s flag set).1 = s := by
  unfold ring_call_channel_set_peer_flags
  simp only
  split <;> split <;> rfl

theorem active_sameCall (env : Env) (s : RingCallChannel) :
    SameCall s (on_modem_call_state_active env s).1 := by
  unfold on_modem_call_state_active
  cases hd : s.dial2nd <;> cases hi : s.call_instance <;>
    simp [Step.andThen, tp_base_call_channel_set_state, SameCall,
      ring_call_channel_send_dialstring, hi]
  split <;> simp_all

theorem update_state_sameCall (env : Env) (s : RingCallChannel) (state : ModemCallState)
    (causetype cause : Nat) :
    SameCall s (ring_call_channel_update_state env s state causetype cause).1 := by
  cases state <;>
    simp only [ring_call_channel_update_state, Step.andThen, play_tone_eq,
      play_error_tone_eq, on_modem_call_state_mo_alerting, set_peer_flags_fst]
  · exact SameCall.refl s
  · exact active_sameCall env s
  · exact SameCall.refl s
  · unfold on_modem_call_state_dialing; split <;> exact ⟨rfl, rfl⟩
  · exact SameCall.refl s
  · unfold on_modem_call_state_incoming; split <;> exact ⟨rfl, rfl⟩
  · exact SameCall.refl s
  · exact mo_release_sameCall env s causetype cause

theorem shutdown_modem_call (s : RingCallChannel) (message : Option String) :
    (ring_call_channel_shutdown_modem s message).1.call_instance = s.call_instance ∧
    ((ring_call_channel_shutdown_modem s message).1.creating_call = s.creating_call ∨
      (ring_call_channel_shutdown_modem s message).1.creating_call = none) := by
  unfold ring_call_channel_shutdown_modem
  cases hc : s.member_conference <;> cases hi : s.call_instance <;>
    cases hr : s.creating_call <;>
    simp [hc, hi, hr, ring_conference_channel_emit_channel_removed,
      ring_member_channel_left] <;>
    split <;> simp_all

theorem update_hold_sameCall (s : RingCallChannel) (hold reason : Int) :
    SameCall s (ring_update_hold s hold reason).1.1 := by
  unfold ring_update_hold
  simp only
  split_ifs <;> exact ⟨rfl, rfl⟩

theorem request_hold_sameCall (env : Env) (s : RingCallChannel) (hold : Bool)
    (backend : Option ModemRequest) :
    SameCall s (request_hold env s hold backend).1 := by
  unfold request_hold
  cases hold <;> simp only [Bool.false_eq_true, if_false, if_true] <;> split <;>
    first
    | exact ⟨rfl, rfl⟩
    | (split_ifs <;> first
        | exact ⟨rfl, rfl⟩
        | (refine SameCall.trans ?_ (update_hold_sameCall _ _ _)
           cases backend <;> exact ⟨rfl, rfl⟩))

@[simp] theorem update_hold_call_instance (s : RingCallChannel) (hold reason : Int) :
    (ring_update_hold s hold reason).1.1.call_instance = s.call_instance :=
  (update_hold_sameCall s hold reason).1

@[simp] theorem update_hold_creating_call (s : RingCallChannel) (hold reason : Int) :
    (ring_update_hold s hold reason).1.1.creating_call = s.creating_call :=
  (update_hold_sameCall s hold reason).2

@[simp] theorem dequeue_call_instance (s : RingCallChannel) (request : Option ModemRequest) :
    (ring_call_channel_dequeue_request s request).call_instance = s.call_instance := by
  unfold ring_call_channel_dequeue_request; split <;> rfl

@[simp] theorem dequeue_creating_call (s : RingCallChannel) (request : Option ModemRequest) :
    (ring_call_channel_dequeue_request s request).creating_call = s.creating_call := by
  unfold ring_call_channel_dequeue_request; split <;> rfl

theorem response_to_hold_sameCall (s : RingCallChannel) (request : Option ModemRequest)
    (error : Option GError) :
    SameCall s (response_to_hold s request error).1 := by
  unfold response_to_hold SameCall
  simp only [Step.andThen, update_hold_call_instance, update_hold_creating_call]
  split_ifs <;> simp

theorem notify_multiparty_sameCall (s : RingCallChannel) (multiparty : Bool) :
    SameCall s (on_modem_call_notify_multiparty s multiparty).1 := by
  unfold on_modem_call_notify_multiparty
  split
  · split
    · exact left_sameCall s
    · exact SameCall.refl s
  · exact SameCall.refl s

theorem bothSet_of_call {s t : RingCallChannel} (h : bothSet s = false)
    (hc : t.call_instance = s.call_instance)
    (hr : t.creating_call = s.creating_call ∨ t.creating_call = none) :
    bothSet t = false := by
  unfold bothSet at *
  rcases hr with hr | hr <;> simp_all

theorem close_call (s : RingCallChannel) :
    (ring_call_channel_close s).1.call_instance = s.call_instance ∧
    ((ring_call_channel_close s).1.creating_call = s.creating_call ∨
      (ring_call_channel_close s).1.creating_call = none) := by
  simpa [ring_call_channel_close, Step.andThen] using
    shutdown_modem_call s (some "Channel closed")

theorem stopped_playing_call (s : RingCallChannel) (source : Nat) :
    (ring_call_channel_stopped_playing s source).1.call_instance = s.call_instance ∧
    ((ring_call_channel_stopped_playing s source).1.creating_call = s.creating_call ∨
      (ring_call_channel_stopped_playing s source).1.creating_call = none) := by
  unfold ring_call_channel_stopped_playing
  split
  · simp only
    split
    · exact close_call _
    · exact ⟨rfl, Or.inl rfl⟩
  · exact ⟨rfl, Or.inl rfl⟩

theorem create_call (env : Env) (s : RingCallChannel) (dial : Option ModemRequest) :
    (ring_call_channel_create env s dial).step.1.call_instance = s.call_instance := by
  unfold ring_call_channel_create
  simp only
  split_ifs <;> rfl

theorem accept_call_instance (env : Env) (s : RingCallChannel) (dial : Option ModemRequest)
    (ci_state : ModemCallState) (r : Step)
    (hs : ring_call_channel_accept env s dial ci_state = some r) :
    r.1.call_instance = s.call_instance := by
  simp only [ring_call_channel_accept] at hs
  by_cases h1 : s.is_requested = true
  · rw [if_pos h1] at hs
    by_cases h2 : (!env.is_valid_address (env.inspect_contact s.target_handle)) = true
    · rw [if_pos h2] at hs
      rw [← Option.some.inj hs]; rfl
    · rw [if_neg h2] at hs
      split at hs
      · rw [← Option.some.inj hs]; exact create_call _ _ _
      · split at hs
        · rw [← Option.some.inj hs]
          simp [Step.andThen, tp_base_call_channel_set_state, create_call]
        · exact absurd hs (by simp)
  · rw [if_neg h1] at hs
    split at hs
    · rw [← Option.some.inj hs]
    · by_cases h3 : ci_state = ModemCallState.DISCONNECTED
      · rw [if_pos h3] at hs
        rw [← Option.some.inj hs]
      · rw [if_neg h3] at hs
        rw [← Option.some.inj hs]
        simp only
        split <;> rfl

theorem accept_creating_call (env : Env) (s : RingCallChannel) (dial : Option ModemRequest)
    (ci_state : ModemCallState) (r : Step) (hq : s.is_requested = false)
    (hs : ring_call_channel_accept env s dial ci_state = some r) :
    r.1.creating_call = s.creating_call := by
  simp only [ring_call_channel_accept] at hs
  rw [if_neg (by simp [hq])] at hs
  split at hs
  · rw [← Option.some.inj hs]
  · by_cases h3 : ci_state = ModemCallState.DISCONNECTED
    · rw [if_pos h3] at hs
      rw [← Option.some.inj hs]
    · rw [if_neg h3] at hs
      rw [← Option.some.inj hs]
      simp only
      split <;> rfl

theorem accept_bothSet (env : Env) (s : RingCallChannel) (dial : Option ModemRequest)
    (ci_state : ModemCallState) (r : Step) (h : bothSet s = false)
    (he : (Op.accept dial ci_state).enabled s = true)
    (hs : ring_call_channel_accept env s dial ci_state = some r) : bothSet r.1 = false := by
  have hc := accept_call_instance env s dial ci_state r hs
  cases hq : s.is_requested
  · exact bothSet_of_call h hc (Or.inl (accept_creating_call env s dial ci_state r hq hs))
  · have hn : s.call_instance = none := by
      simp [Op.enabled, hq] at he
      exact he.1
    simp [bothSet, hc, hn]

theorem set_call_instance_some_creating (s : RingCallChannel) (c : ModemCall) :
    (ring_call_channel_set_call_instance s (some c)).1.creating_call = s.creating_call := by
  unfold ring_call_channel_set_call_instance
  by_cases h : some c = s.call_instance
  · rw [if_pos h]
  · rw [if_neg h]
    simp

theorem dial_failed_sameCall (env : Env) (s : RingCallChannel) (error : GError) :
    SameCall s (dial_failed env s error).1 := by
  unfold dial_failed
  simp only [play_tone_eq]
  exact released_sameCall _ _ _ _ _ _

theorem reply_creating_none (env : Env) (s : RingCallChannel)
    (request : Option ModemRequest) (ci : Option ModemCall) (error : Option GError)
    (r : Step) (hreq : request = s.creating_call)
    (hs : reply_to_modem_call_request_dial env s request ci error = some r) :
    r.1.creating_call = none := by
  simp only [reply_to_modem_call_request_dial] at hs
  rw [if_pos hreq] at hs
  cases ci with
  | some c =>
    simp only at hs
    split_ifs at hs with h1
    rw [← Option.some.inj hs]
    simp only [Step.andThen]
    split_ifs
    · rw [(update_state_sameCall _ _ _ _ _).2, set_call_instance_some_creating]
    · simp only
      rw [set_call_instance_some_creating]
  | none =>
    cases error with
    | some e =>
      simp only at hs
      rw [← Option.some.inj hs, (dial_failed_sameCall _ _ _).2]
    | none => simp at hs

/-- One enabled entry point keeps the backend handle and the pending create
request from being set together. -/
theorem step_bothSet (env : Env) (s : RingCallChannel) (op : Op) (r : Step)
    (h : bothSet s = false) (he : op.enabled s = true) (hs : step env s op = some r) :
    bothSet r.1 = false := by
  cases op with
  | accept dial ci_state => exact accept_bothSet env s dial ci_state r h he hs
  | dial_reply request ci error =>
    have hreq : request = s.creating_call := by
      simp [Op.enabled] at he
      exact he.2
    have := reply_creating_none env s request ci error r hreq hs
    simp [bothSet, this]
  | hangup reason detailed message =>
    rw [← Option.some.inj hs]
    have := shutdown_modem_call s message
    exact bothSet_of_call h (by simpa [ring_call_channel_hangup, Step.andThen] using this.1)
      (by simpa [ring_call_channel_hangup, Step.andThen] using this.2)
  | close =>
    rw [← Option.some.inj hs]
    exact bothSet_of_call h (close_call s).1 (close_call s).2
  | update_state state causetype cause =>
    rw [← Option.some.inj hs]
    have := update_state_sameCall env s state causetype cause
    exact bothSet_of_call h this.1 (Or.inl this.2)
  | on_hold onhold =>
    rw [← Option.some.inj hs]
    simp only [on_modem_call_on_hold, set_peer_flags_fst]
    exact h
  | notify_multiparty multiparty =>
    rw [← Option.some.inj hs]
    have := notify_multiparty_sameCall s multiparty
    exact bothSet_of_call h this.1 (Or.inl this.2)
  | request_hold hold backend =>
    rw [← Option.some.inj hs]
    have := request_hold_sameCall env s hold backend
    exact bothSet_of_call h this.1 (Or.inl this.2)
  | hold_reply request error =>
    rw [← Option.some.inj hs]
    have := response_to_hold_sameCall s request error
    exact bothSet_of_call h this.1 (Or.inl this.2)
  | stopped_playing source =>
    rw [← Option.some.inj hs]
    exact bothSet_of_call h (stopped_playing_call s source).1 (stopped_playing_call s source).2

theorem runEnabled_bothSet (env : Env) (ops : List Op) :
    ∀ (s : RingCallChannel) (r : Step), bothSet s = false →
      runEnabled env s ops = some r → bothSet r.1 = false := by
  induction ops with
  | nil =>
    intro s r h hr
    rw [← Option.some.inj hr]; exact h
  | cons op ops ih =>
    intro s r h hr
    simp only [runEnabled] at hr
    by_cases he : op.enabled s = true
    · rw [if_pos he] at hr
      cases hs : step env s op with
      | none => simp [hs] at hr
      | some r1 =>
        simp only [hs] at hr
        cases hr2 : runEnabled env r1.1 ops with
        | none => simp [hr2] at hr
        | some r2 =>
          simp only [hr2] at hr
          rw [← Option.some.inj hr]
          exact ih r1.1 r2 (step_bothSet env s op r1 h he hs) hr2
    · rw [if_neg he] at hr
      exact absurd hr (by simp)

/-! ## C1: the release latch -/

/-- C1: the release protocol `ring_call_channel_released` takes effect at
most once. Whatever the session and the arguments, an invocation leaves the
`released` latch set and reports at most one transition to Ended, and every
invocation after it changes no state and reports nothing. For every
sequence of release triggers (backend Disconnected notifications, failed
create-call replies, hangup, close) the sequence runs to the end and reports
at most one transition to Ended in total; on a session that is already
released it reports none and the latch stays set. -/
theorem C1_release_takes_effect_once (env : Env) (s : RingCallChannel) :
    (∀ (actor : TpHandle) (reason : Nat) (message : Option String) (error : Option GError)
        (debug : Option String),
      (ring_call_channel_released s actor reason message error debug).1.released = true ∧
      (ring_call_channel_released s actor reason message error debug).2.countP
        Effect.isEnded ≤ 1 ∧
      ∀ (actor2 : TpHandle) (reason2 : Nat) (message2 : Option String)
          (error2 : Option GError) (debug2 : Option String),
        ring_call_channel_released
            (ring_call_channel_released s actor reason message error debug).1
            actor2 reason2 message2 error2 debug2
          = ((ring_call_channel_released s actor reason message error debug).1, [])) ∧
    (∀ ops : List Op, (∀ op ∈ ops, op.isReleaseTrigger = true) →
      ∃ r, run env s ops = some r ∧ r.2.countP Effect.isEnded ≤ 1 ∧
        (s.released = true → r.1.released = true ∧ r.2.countP Effect.isEnded = 0)) := by
  constructor
  · intro actor reason message error debug
    have hc := released_count s actor reason message error debug
    have hb := Bool.toNat_le
      (ring_call_channel_released s actor reason message error debug).1.released
    have hl : (ring_call_channel_released s actor reason message error debug).1.released
        = true := by
      unfold ring_call_channel_released
      by_cases h : s.released = true
      · simp [h]
      · simp only [h]
        cases hm : s.member_conference <;>
          simp [Step.andThen, hm, ring_conference_channel_emit_channel_removed,
            ring_member_channel_left, tp_base_call_channel_set_state] <;>
          split <;> simp_all
    refine ⟨hl, by omega, ?_⟩
    intro actor2 reason2 message2 error2 debug2
    generalize (ring_call_channel_released s actor reason message error debug).1 = t at hl
    unfold ring_call_channel_released
    simp [hl]
  · intro ops hops
    obtain ⟨r, hr, hc⟩ := run_triggers_count env ops s hops
    have hb := Bool.toNat_le r.1.released
    refine ⟨r, hr, by omega, ?_⟩
    intro hs
    rw [hs] at hc
    simp only [Bool.toNat_true] at hc
    have h1 : r.1.released.toNat = 1 := by omega
    refine ⟨?_, by omega⟩
    cases hrel : r.1.released
    · rw [hrel] at h1; simp at h1
    · rfl

/-- C1 at work: on the active session a hangup, two backend Disconnected
notifications and a close are all release triggers; they run and report
one Ended transition at most. -/
theorem C1_release_takes_effect_once_witness :
    (∀ op ∈ [Op.hangup 0 "" (some "bye"),
        Op.update_state ModemCallState.DISCONNECTED 0 0,
        Op.update_state ModemCallState.DISCONNECTED 1 16, Op.close],
      op.isReleaseTrigger = true) ∧
    ∃ r, run env0 activeSession [Op.hangup 0 "" (some "bye"),
        Op.update_state ModemCallState.DISCONNECTED 0 0,
        Op.update_state ModemCallState.DISCONNECTED 1 16, Op.close] = some r ∧
      r.2.countP Effect.isEnded ≤ 1 ∧
      (activeSession.released = true → r.1.released = true ∧ r.2.countP Effect.isEnded = 0) :=
  ⟨by decide, (C1_release_takes_effect_once env0 activeSession).2 _ (by decide)⟩

/-! ## C2: backend handle and pending create request -/

/-- C2 as stated fails: nothing in `ring_call_channel_accept` or
`ring_call_channel_create` looks at the backend handle, so a second accept
after the create-call reply delivered call 3 leaves both the handle and a
new pending create request set. -/
theorem C2_counterexample :
    ∃ r, run env0 (fresh true 7)
        [Op.accept (some 11) ModemCallState.INVALID,
         Op.dial_reply (some 11) (some 3) none,
         Op.accept (some 12) ModemCallState.INVALID] = some r ∧
      r.1.call_instance = some 3 ∧ r.1.creating_call = some 12 :=
  ⟨_, rfl, rfl, rfl⟩

/-- C2, amended: from every session in which the backend handle and the
pending create request are not both set (every freshly constructed session
is one), every sequence of accept, create-call replies, hangup, close,
backend notifications, hold requests and replies and tone completions, in
which accept on a locally requested session is delivered only while there
is neither a backend handle nor a pending create request and each
create-call reply answers the pending request, ends in a session where the
two are not both set. -/
theorem C2_handle_excludes_pending_create (env : Env) (s0 : RingCallChannel)
    (ops : List Op) (r : Step) (h0 : bothSet s0 = false)
    (hr : runEnabled env s0 ops = some r) :
    ¬ (r.1.call_instance.isSome = true ∧ r.1.creating_call.isSome = true) := by
  have h := runEnabled_bothSet env ops s0 r h0 hr
  simpa [bothSet] using h

/-- C2 at work on a full call: accept, create-call reply with call 3,
Active, hangup, Disconnected. -/
theorem C2_handle_excludes_pending_create_witness :
    bothSet (fresh true 7) = false ∧
    runEnabled env0 (fresh true 7) fullCallOps = some fullCallResult ∧
    ¬ (fullCallResult.1.call_instance.isSome = true ∧ fullCallResult.1.creating_call.isSome = true) :=
  ⟨rfl, rfl, C2_handle_excludes_pending_create env0 (fresh true 7) fullCallOps fullCallResult rfl rfl⟩


/-! ## C5 to C7: the hold state machine -/

/-- What an accepted hold or unhold request leaves behind: success is
reported, one backend request is issued, the request is appended to the
request queue and kept as the outstanding control request, the target is
recorded and the pending sub-state is announced with reason requested. The
stored hold state and hold reason are what they were. -/
theorem request_hold_accepted (env : Env) (s : RingCallChannel) (hold : Bool)
    (ci : ModemCall) (r : ModemRequest)
    (hci : s.call_instance = some ci)
    (hns1 : s.hold.state ≠ (if hold then TP_LOCAL_HOLD_STATE_HELD
                              else TP_LOCAL_HOLD_STATE_UNHELD))
    (hns2 : s.hold.state ≠ (if hold then TP_LOCAL_HOLD_STATE_PENDING_HOLD
                              else TP_LOCAL_HOLD_STATE_PENDING_UNHOLD))
    (hst : s.state = (if hold then ModemCallState.ACTIVE else ModemCallState.HELD))
    (hc : s.control = none) :
    request_hold env s hold (some r) =
      ({ s with
          control := some r, requests := s.requests.map (fun q => q ++ [r])
          hold := { s.hold with
            requested := (if hold then TP_LOCAL_HOLD_STATE_HELD
                            else TP_LOCAL_HOLD_STATE_UNHELD) } },
        [Effect.return_from_request_hold, Effect.request_hold (some ci) hold,
         Effect.hold_state_changed
           (if hold then TP_LOCAL_HOLD_STATE_PENDING_HOLD
             else TP_LOCAL_HOLD_STATE_PENDING_UNHOLD)
           TP_LOCAL_HOLD_STATE_REASON_REQUESTED]) := by
  have h1 := Ne.symm hns1
  have h2 := Ne.symm hns2
  cases hold <;>
    simp only [Bool.false_eq_true, if_false, if_true] at h1 h2 hst ⊢ <;>
    simp [request_hold, hci, hst, hc, h1, h2, ring_call_channel_queue_request,
      ring_update_hold, set_hold_state_properties, uint32] <;>
    simp [TP_LOCAL_HOLD_STATE_UNHELD, TP_LOCAL_HOLD_STATE_HELD,
      TP_LOCAL_HOLD_STATE_PENDING_HOLD, TP_LOCAL_HOLD_STATE_PENDING_UNHOLD,
      TP_LOCAL_HOLD_STATE_REASON_REQUESTED] at h1 h2 ⊢ <;>
    simp [h1, h2]

/-- C5: on a session with a live backend handle, a `request_hold` whose
target is the confirmed hold state, or whose pending sub-state is already
the visible one, only reports success: no backend request is issued, and
the session is unchanged except that the hold reason reads requested,
whatever the call state and the outstanding control request are. -/
theorem C5_hold_already_satisfied (env : Env) (s : RingCallChannel) (hold : Bool)
    (backend : Option ModemRequest) (ci : ModemCall) (hci : s.call_instance = some ci)
    (hsat : s.hold.state = (if hold then TP_LOCAL_HOLD_STATE_HELD
                              else TP_LOCAL_HOLD_STATE_UNHELD) ∨
            s.hold.state = (if hold then TP_LOCAL_HOLD_STATE_PENDING_HOLD
                              else TP_LOCAL_HOLD_STATE_PENDING_UNHOLD)) :
    request_hold env s hold backend =
      ({ s with hold := { s.hold with reason := TP_LOCAL_HOLD_STATE_REASON_REQUESTED } },
        [Effect.return_from_request_hold]) := by
  unfold request_hold
  simp only [hci]
  rw [if_pos]
  rcases hsat with h | h
  · exact Or.inl h.symm
  · exact Or.inr h.symm

/-- C5 at work: an unhold is asked for on the answered call, which is
unheld. -/
theorem C5_hold_already_satisfied_witness :
    (sessionActive 7 3).call_instance = some 3 ∧
    (sessionActive 7 3).hold.state = TP_LOCAL_HOLD_STATE_UNHELD ∧
    request_hold env0 (sessionActive 7 3) false (some 22) =
      ({ sessionActive 7 3 with
          hold := { (sessionActive 7 3).hold with
            reason := TP_LOCAL_HOLD_STATE_REASON_REQUESTED } },
        [Effect.return_from_request_hold]) :=
  ⟨rfl, rfl,
    C5_hold_already_satisfied env0 (sessionActive 7 3) false (some 22) 3 rfl (Or.inl rfl)⟩

/-- C6: on a session with a live backend handle whose request is not
already satisfied, `request_hold(true)` while the call state is not Active
and `request_hold(false)` while it is not Held only report NotAvailable,
naming the call state: no backend request is issued and the session is
unchanged. -/
theorem C6_hold_wrong_call_state (env : Env) (s : RingCallChannel) (hold : Bool)
    (backend : Option ModemRequest) (ci : ModemCall) (hci : s.call_instance = some ci)
    (hns1 : s.hold.state ≠ (if hold then TP_LOCAL_HOLD_STATE_HELD
                              else TP_LOCAL_HOLD_STATE_UNHELD))
    (hns2 : s.hold.state ≠ (if hold then TP_LOCAL_HOLD_STATE_PENDING_HOLD
                              else TP_LOCAL_HOLD_STATE_PENDING_UNHOLD))
    (hst : s.state ≠ (if hold then ModemCallState.ACTIVE else ModemCallState.HELD)) :
    request_hold env s hold backend =
      (s, [Effect.return_error TpError.NOT_AVAILABLE
        ("Invalid call state " ++ env.state_name s.state)]) := by
  unfold request_hold
  simp only [hci]
  rw [if_neg, if_pos hst]
  rintro (h | h)
  · exact hns1 h.symm
  · exact hns2 h.symm

/-- C6 at work: a hold is asked for while the call is still Alerting. -/
theorem C6_hold_wrong_call_state_witness :
    request_hold env0 { activeSession with state := ModemCallState.ALERTING } true (some 22) =
      ({ activeSession with state := ModemCallState.ALERTING },
        [Effect.return_error TpError.NOT_AVAILABLE
          ("Invalid call state " ++ env0.state_name ModemCallState.ALERTING)]) :=
  C6_hold_wrong_call_state env0 { activeSession with state := ModemCallState.ALERTING } true
    (some 22) 3 rfl (by decide) (by decide) (by decide)

/-- C7: on a session with a live backend handle whose call state matches
the request and whose request is not already satisfied, `request_hold`
while a control request is outstanding only reports NotAvailable, "Call
control operation pending": no backend request is issued and the session,
the outstanding request included, is unchanged. -/
theorem C7_hold_while_control_pending (env : Env) (s : RingCallChannel) (hold : Bool)
    (backend : Option ModemRequest) (ci : ModemCall) (pending : ModemRequest)
    (hci : s.call_instance = some ci)
    (hns1 : s.hold.state ≠ (if hold then TP_LOCAL_HOLD_STATE_HELD
                              else TP_LOCAL_HOLD_STATE_UNHELD))
    (hns2 : s.hold.state ≠ (if hold then TP_LOCAL_HOLD_STATE_PENDING_HOLD
                              else TP_LOCAL_HOLD_STATE_PENDING_UNHOLD))
    (hst : s.state = (if hold then ModemCallState.ACTIVE else ModemCallState.HELD))
    (hc : s.control = some pending) :
    request_hold env s hold backend =
      (s, [Effect.return_error TpError.NOT_AVAILABLE "Call control operation pending"]) := by
  unfold request_hold
  simp only [hci]
  rw [if_neg, if_neg (not_not.mpr hst), if_pos (by simp [hc])]
  rintro (h | h)
  · exact hns1 h.symm
  · exact hns2 h.symm

/-- C7 at work: a second hold is asked for while the hold request 21 is
still outstanding. -/
theorem C7_hold_while_control_pending_witness :
    pendingHoldSession.control = some 21 ∧
    request_hold env0 pendingHoldSession true (some 22) =
      (pendingHoldSession,
        [Effect.return_error TpError.NOT_AVAILABLE "Call control operation pending"]) :=
  ⟨rfl, C7_hold_while_control_pending env0 pendingHoldSession true (some 22) 3 21 rfl
    (by decide) (by decide) rfl rfl⟩

/-! ## C8: teardown of the request queue -/

/-- C9 as stated fails: in a conference of exactly two members `split`
issues a backend split request and no unhold request; the unhold branch is
taken only when `ring_conference_channel_has_members` reports at most one. -/
theorem C9_counterexample :
    ring_member_channel_method_split memberSession 2
      = (memberSession, [Effect.request_split (some 3)]) ∧
    Effect.request_hold (some 3) false ∉ (ring_member_channel_method_split memberSession 2).2 :=
  ⟨rfl, by decide⟩

/-- C9, amended: for a session that is a member of a conference, `split`
removes no session from the conference and leaves the session unchanged.
When the conference has at most one member left it issues no backend split
request and instead one unhold request for the session's own call; when it
has two or more members it issues one backend split request. -/
theorem C9_split_unholds_when_one_member_left (s : RingCallChannel)
    (conference : RingConferenceChannel) (has_members : Nat)
    (hm : s.member_conference = some conference) :
    ring_member_channel_method_split s has_members =
      (s, [if has_members ≤ 1 then Effect.request_hold s.call_instance false
           else Effect.request_split s.call_instance]) := by
  unfold ring_member_channel_method_split
  simp only [hm]
  split <;> rfl

/-- C9 at work: the last member of conference 5 asks to split. -/
theorem C9_split_unholds_when_one_member_left_witness :
    memberSession.member_conference = some 5 ∧
    ring_member_channel_method_split memberSession 1 =
      (memberSession, [if 1 ≤ 1 then Effect.request_hold memberSession.call_instance false
           else Effect.request_split memberSession.call_instance]) :=
  ⟨rfl, C9_split_unholds_when_one_member_left memberSession 5 1 rfl⟩

/-- C10: for a session that is a member of conference `a`, joining a
different conference `b` is the removal from `a`, reported with message
"Joined new conference", the session's self handle as actor and reason
invited, after which the session is in no conference, followed by setting
the conference to `b`; nothing else is reported, and afterwards the
session's conference is `b`. -/
theorem C10_join_leaves_old_conference_first (s : RingCallChannel)
    (a b : RingConferenceChannel) (ha : s.member_conference = some a) (hab : b ≠ a) :
    (ring_conference_channel_emit_channel_removed s a (some "Joined new conference")
        s.self_handle TP_CHANNEL_GROUP_CHANGE_REASON_INVITED).2 =
      [Effect.channel_removed a (some "Joined new conference") s.self_handle
        TP_CHANNEL_GROUP_CHANGE_REASON_INVITED] ∧
    (ring_conference_channel_emit_channel_removed s a (some "Joined new conference")
        s.self_handle TP_CHANNEL_GROUP_CHANGE_REASON_INVITED).1.member_conference = none ∧
    ring_member_channel_joined s b =
      ({ (ring_conference_channel_emit_channel_removed s a (some "Joined new conference")
            s.self_handle TP_CHANNEL_GROUP_CHANGE_REASON_INVITED).1 with
          member_conference := some b },
        [Effect.channel_removed a (some "Joined new conference") s.self_handle
          TP_CHANNEL_GROUP_CHANGE_REASON_INVITED]) ∧
    (ring_member_channel_joined s b).1.member_conference = some b := by
  have hne : ¬ a = b := fun h => hab h.symm
  simp [ring_member_channel_joined, ring_conference_channel_emit_channel_removed,
    ring_member_channel_left, Step.andThen, ha, hne]

/-- C10 at work: the member of conference 5 joins conference 6. -/
theorem C10_join_leaves_old_conference_first_witness :
    memberSession.member_conference = some 5 ∧
    (ring_member_channel_joined memberSession 6).2 =
      [Effect.channel_removed 5 (some "Joined new conference") 1
        TP_CHANNEL_GROUP_CHANGE_REASON_INVITED] ∧
    (ring_member_channel_joined memberSession 6).1.member_conference = some 6 :=
  have h := C10_join_leaves_old_conference_first memberSession 5 6 rfl (by decide)
  ⟨rfl, congrArg Prod.snd h.2.2.1, h.2.2.2⟩

/-! ## C11: originate, hang up, disconnect -/

theorem accept_fresh (env : Env) (peer : TpHandle) (r : ModemRequest) (st : ModemCallState)
    (hv : env.is_valid_address (env.inspect_contact peer) = true)
    (hne : RING_STR_EMPTY (env.inspect_contact peer) = false) :
    ring_call_channel_accept env (fresh true peer) (some r) st =
      some (sessionCreating peer
          (env.split_address ((env.inspect_contact peer).getD "") 0).2.1 r,
        [Effect.request_dial (env.split_address ((env.inspect_contact peer).getD "") 0).1
          (env.split_address ((env.inspect_contact peer).getD "") 0).2.2]) := by
  simp [ring_call_channel_accept, ring_call_channel_create, fresh, hv, hne,
    MODEM_CLIR_OVERRIDE_DEFAULT, sessionCreating]

theorem reply_dialing (env : Env) (peer : TpHandle) (r : ModemRequest) (c : ModemCall)
    (d : Option String) (error : Option GError) :
    reply_to_modem_call_request_dial env (sessionCreating peer d r) (some r) (some c) error =
      some (sessionDialing peer d c, []) := by
  simp [reply_to_modem_call_request_dial, ring_call_channel_set_call_instance, fresh,
    Step.andThen, ring_call_channel_update_state, on_modem_call_state_dialing,
    sessionCreating, sessionDialing]

theorem dialing_again (env : Env) (peer : TpHandle) (c : ModemCall) (d : Option String) :
    ring_call_channel_update_state env (sessionDialing peer d c) ModemCallState.DIALING 0 0 =
      (sessionDialing peer d c, []) := by
  simp [fresh, Step.andThen, ring_call_channel_update_state, on_modem_call_state_dialing,
    sessionDialing]

theorem active_reported (env : Env) (peer : TpHandle) (c : ModemCall) (d : Option String) :
    (ring_call_channel_update_state env (sessionDialing peer d c)
        ModemCallState.ACTIVE 0 0).1 = sessionActive peer c ∧
    endedReasons (ring_call_channel_update_state env (sessionDialing peer d c)
        ModemCallState.ACTIVE 0 0).2 = [] := by
  cases d with
  | none =>
    simp [fresh, Step.andThen, ring_call_channel_update_state, on_modem_call_state_active,
      tp_base_call_channel_set_state, endedReasons, TP_CALL_STATE_ACTIVE, TP_CALL_STATE_ENDED,
      sessionDialing, sessionActive]
  | some digits =>
    by_cases ha : env.dtmf_accepted digits = true <;>
    simp [fresh, Step.andThen, ring_call_channel_update_state, on_modem_call_state_active,
      tp_base_call_channel_set_state, endedReasons, TP_CALL_STATE_ACTIVE, TP_CALL_STATE_ENDED,
      ring_call_channel_send_dialstring, ha, sessionDialing, sessionActive]

theorem endedReasons_append (a b : List Effect) :
    endedReasons (a ++ b) = endedReasons a ++ endedReasons b := by
  simp [endedReasons, List.filterMap_append]

theorem hangup_active (peer : TpHandle) (c : ModemCall) (reason : Nat)
    (detailed_reason : String) (message : Option String) :
    ring_call_channel_hangup (sessionActive peer c) reason detailed_reason message =
      (sessionHungUp peer c message,
        [Effect.request_release c, Effect.parent_hangup reason detailed_reason message]) := by
  simp [ring_call_channel_hangup, ring_call_channel_shutdown_modem, fresh, Step.andThen,
    sessionActive, sessionHungUp]

/-- A backend Disconnected notification without cause on a session that is
not released, not Ended, in no conference and without latched actor. -/
theorem disconnected_plain (env : Env) (s : RingCallChannel)
    (hr : s.released = false) (hs : s.call_state ≠ TP_CALL_STATE_ENDED)
    (ha : s.release.actor = 0) (hc : s.member_conference = none) :
    ring_call_channel_update_state env s ModemCallState.DISCONNECTED 0 0 =
      ({ s with released := true, call_state := TP_CALL_STATE_ENDED },
        [Effect.set_state TP_CALL_STATE_ENDED 0 TP_CALL_STATE_CHANGE_REASON_PROGRESS_MADE ""
          (env.mo_release_debug (env.release_reason 0 0) (env.new_error 0 0) 0 0)]) := by
  simp [ring_call_channel_update_state, Step.andThen, play_error_tone_eq,
    on_modem_call_state_mo_release, ring_call_channel_released, ha, hr, hc, hs,
    tp_base_call_channel_set_state]

/-- C11: on a freshly constructed outgoing session whose destination is
valid (the resolver's string passes the address check and is not empty),
the trace accept, create-call reply carrying a backend call, backend
reports Dialing, backend reports Active, hangup, backend reports
Disconnected runs to the end and reports exactly one transition to Ended,
with reason progress-made; afterwards the call state is Ended and no tone
is playing. -/
theorem C11_originate_hangup_disconnect (env : Env) (peer : TpHandle) (r : ModemRequest)
    (c : ModemCall) (st : ModemCallState) (error : Option GError) (reason : Nat)
    (detailed_reason : String) (message : Option String)
    (hv : env.is_valid_address (env.inspect_contact peer) = true)
    (hne : RING_STR_EMPTY (env.inspect_contact peer) = false) :
    ∃ res, run env (fresh true peer)
        (originateTrace r c st error reason detailed_reason message) = some res ∧
      endedReasons res.2 = [TP_CALL_STATE_CHANGE_REASON_PROGRESS_MADE] ∧
      res.1.call_state = TP_CALL_STATE_ENDED ∧
      res.1.playing = 0 := by
  obtain ⟨h4s, h4e⟩ := active_reported env peer c
    (env.split_address ((env.inspect_contact peer).getD "") 0).2.1
  have h6 := disconnected_plain env (sessionHungUp peer c message)
    rfl (by simp [sessionHungUp, sessionActive, TP_CALL_STATE_ACTIVE, TP_CALL_STATE_ENDED])
    rfl rfl
  simp only [run, step, originateTrace, accept_fresh env peer r st hv hne, reply_dialing,
    dialing_again, h4s, hangup_active, h6]
  refine ⟨_, rfl, ?_, rfl, rfl⟩
  simp only [endedReasons_append, h4e]
  simp [endedReasons, TP_CALL_STATE_ENDED]

/-- C11 at work: peer 7 is dialled, answered and hung up with "bye". -/
theorem C11_originate_hangup_disconnect_witness :
    env0.is_valid_address (env0.inspect_contact 7) = true ∧
    RING_STR_EMPTY (env0.inspect_contact 7) = false ∧
    ∃ res, run env0 (fresh true 7)
        (originateTrace 11 3 ModemCallState.INVALID none 0 "" (some "bye")) = some res ∧
      endedReasons res.2 = [TP_CALL_STATE_CHANGE_REASON_PROGRESS_MADE] ∧
      res.1.call_state = TP_CALL_STATE_ENDED ∧
      res.1.playing = 0 :=
  ⟨rfl, rfl, C11_originate_hangup_disconnect env0 7 11 3 ModemCallState.INVALID none 0 ""
    (some "bye") rfl rfl⟩

/-! ## C12 and C13: what a backend disconnect reports -/

/-- What a backend Disconnected notification with cause reports on a
session that is not released: the removal from the conference, if the
session is in one, then the transition to Ended, unless the call state is
Ended already. -/
theorem disconnected_effects (env : Env) (s : RingCallChannel) (causetype cause : Nat)
    (hr : s.released = false) :
    (ring_call_channel_update_state env s ModemCallState.DISCONNECTED causetype cause).2 =
      (match s.member_conference with
        | some conference =>
          [Effect.channel_removed conference
            (if s.release.actor = 0 then some (env.new_error causetype cause).message
              else s.release.message)
            s.release.actor
            (if s.release.actor = 0 then env.release_reason causetype cause
              else s.release.reason)]
        | none => []) ++
      (if s.call_state ≠ TP_CALL_STATE_ENDED then
        [Effect.set_state TP_CALL_STATE_ENDED s.release.actor
          (if s.release.actor = 0 ∧ causetype ≠ 0 ∧ cause ≠ 0 ∧
              env.release_reason causetype cause ≠ TP_CHANNEL_GROUP_CHANGE_REASON_BUSY ∧
              env.release_reason causetype cause ≠ TP_CHANNEL_GROUP_CHANGE_REASON_NONE
            then TP_CALL_STATE_CHANGE_REASON_INTERNAL_ERROR
            else TP_CALL_STATE_CHANGE_REASON_PROGRESS_MADE)
          (if s.release.actor = 0 ∧ causetype ≠ 0 ∧ cause ≠ 0 ∧
              env.release_reason causetype cause ≠ TP_CHANNEL_GROUP_CHANGE_REASON_BUSY ∧
              env.release_reason causetype cause ≠ TP_CHANNEL_GROUP_CHANGE_REASON_NONE
            then (env.new_error causetype cause).fqn else "")
          (env.mo_release_debug
            (if s.release.actor = 0 then env.release_reason causetype cause
              else s.release.reason)
            (env.new_error causetype cause) causetype cause)]
      else []) := by
  by_cases ha : s.release.actor = 0 <;> cases hc : s.member_conference <;>
    by_cases hs : s.call_state = TP_CALL_STATE_ENDED <;>
    by_cases h1 : causetype = 0 <;> by_cases h2 : cause = 0 <;>
    by_cases h3 : env.release_reason causetype cause = TP_CHANNEL_GROUP_CHANGE_REASON_BUSY <;>
    by_cases h4 : env.release_reason causetype cause = TP_CHANNEL_GROUP_CHANGE_REASON_NONE <;>
    simp [ring_call_channel_update_state, Step.andThen, play_error_tone_eq,
      on_modem_call_state_mo_release, ring_call_channel_released, ha, hr, hc, hs, h1, h2, h3, h4,
      tp_base_call_channel_set_state, ring_conference_channel_emit_channel_removed,
      ring_member_channel_left]

theorem disconnected_released (env : Env) (s : RingCallChannel) (causetype cause : Nat)
    (hr : s.released = true) :
    (ring_call_channel_update_state env s ModemCallState.DISCONNECTED causetype cause).2 = [] := by
  by_cases ha : s.release.actor = 0 <;>
    simp [ring_call_channel_update_state, Step.andThen, play_error_tone_eq,
      on_modem_call_state_mo_release, ring_call_channel_released, ha, hr]

/-- C12 as stated fails. With a mapping that assigns busy (3) to cause
(1, 17), no-answer (8) to (1, 19) and error (6) to (1, 16), the reason
reported with Ended is progress-made (1) for the busy cause and one and the
same internal-error (9) for the other two. -/
theorem C12_counterexample :
    env1.release_reason 1 17 = 3 ∧
    endedReasons (ring_call_channel_update_state env1 activeSession
      ModemCallState.DISCONNECTED 1 17).2 = [1] ∧
    env1.release_reason 1 19 = 8 ∧
    endedReasons (ring_call_channel_update_state env1 activeSession
      ModemCallState.DISCONNECTED 1 19).2 = [9] ∧
    env1.release_reason 1 16 = 6 ∧
    endedReasons (ring_call_channel_update_state env1 activeSession
      ModemCallState.DISCONNECTED 1 16).2 = [9] :=
  ⟨rfl, rfl, rfl, rfl, rfl, rfl⟩

/-- C12, amended: a backend disconnect with cause type and cause reports a
transition to Ended only on a session that is neither released nor Ended
already, and the reason it reports is internal-error when no release actor
is latched, cause type and cause are both non-zero and the mapped release
reason is neither busy nor none, and progress-made in every other case. -/
theorem C12_ended_reason_progress_or_internal_error (env : Env) (s : RingCallChannel)
    (causetype cause : Nat) :
    endedReasons (ring_call_channel_update_state env s
        ModemCallState.DISCONNECTED causetype cause).2 =
      if s.released = true ∨ s.call_state = TP_CALL_STATE_ENDED then []
      else if s.release.actor = 0 ∧ causetype ≠ 0 ∧ cause ≠ 0 ∧
          env.release_reason causetype cause ≠ TP_CHANNEL_GROUP_CHANGE_REASON_BUSY ∧
          env.release_reason causetype cause ≠ TP_CHANNEL_GROUP_CHANGE_REASON_NONE
        then [TP_CALL_STATE_CHANGE_REASON_INTERNAL_ERROR]
        else [TP_CALL_STATE_CHANGE_REASON_PROGRESS_MADE] := by
  cases hr : s.released
  · rw [disconnected_effects env s causetype cause hr]
    cases hc : s.member_conference <;>
      by_cases hs : s.call_state = TP_CALL_STATE_ENDED <;>
      simp [endedReasons, hs] <;> split <;> simp_all
  · rw [disconnected_released env s causetype cause hr]
    simp [endedReasons]

/-- C13 as stated fails: on the active session, whose peer is handle 7 and
which has no release actor latched, the backend disconnect reports the
transition to Ended with actor 0. -/
theorem C13_counterexample :
    activeSession.peer_handle = 7 ∧ activeSession.release.actor = 0 ∧
    endedActors (ring_call_channel_update_state env0 activeSession
      ModemCallState.DISCONNECTED 0 0).2 = [0] :=
  ⟨rfl, rfl, rfl⟩

/-- C13, amended: a backend disconnect reports a transition to Ended only
on a session that is neither released nor Ended already, and the acting
party it reports is the latched release actor, which is 0, the unknown
actor, when none is latched; the peer handle is not put in its place. -/
theorem C13_ended_actor_is_latched_actor (env : Env) (s : RingCallChannel)
    (causetype cause : Nat) :
    endedActors (ring_call_channel_update_state env s
        ModemCallState.DISCONNECTED causetype cause).2 =
      if s.released = true ∨ s.call_state = TP_CALL_STATE_ENDED then []
      else [s.release.actor] := by
  cases hr : s.released
  · rw [disconnected_effects env s causetype cause hr]
    cases hc : s.member_conference <;>
      by_cases hs : s.call_state = TP_CALL_STATE_ENDED <;>
      simp [endedActors, hs]
  · rw [disconnected_released env s causetype cause hr]
    simp [endedActors]

/-! ## C14: hangup -/

theorem releaseRequests_append (a b : List Effect) :
    releaseRequests (a ++ b) = releaseRequests a ++ releaseRequests b := by
  simp [releaseRequests, List.filterMap_append]

theorem releaseRequests_cancel (q : List ModemRequest) :
    releaseRequests (q.map Effect.request_cancel) = [] := by
  induction q with
  | nil => rfl
  | cons a q ih =>
    simp only [releaseRequests, List.map_cons, List.filterMap_cons] at ih ⊢
    exact ih

theorem endedReasons_cancel (q : List ModemRequest) :
    endedReasons (q.map Effect.request_cancel) = [] := by
  induction q with
  | nil => rfl
  | cons a q ih =>
    simp only [endedReasons, List.map_cons, List.filterMap_cons] at ih ⊢
    exact ih

/-- C14: hangup on a session with a live backend handle latches the
supplied message as the release message only if none is latched yet and
keeps an already latched one, sends exactly one release request to the
backend, for that handle, and reports no transition to Ended: the call
state, the released latch and the backend handle are as before. -/
theorem C14_hangup_requests_release_only (s : RingCallChannel) (ci : ModemCall)
    (reason : Nat) (detailed_reason : String) (message : Option String)
    (hci : s.call_instance = some ci) :
    (ring_call_channel_hangup s reason detailed_reason message).1.release.message =
      (if s.release.message.isNone then message else s.release.message) ∧
    releaseRequests (ring_call_channel_hangup s reason detailed_reason message).2 = [ci] ∧
    endedReasons (ring_call_channel_hangup s reason detailed_reason message).2 = [] ∧
    (ring_call_channel_hangup s reason detailed_reason message).1.call_state = s.call_state ∧
    (ring_call_channel_hangup s reason detailed_reason message).1.released = s.released ∧
    (ring_call_channel_hangup s reason detailed_reason message).1.call_instance
      = s.call_instance := by
  cases hc : s.member_conference <;> cases hq : s.requests <;>
    cases hm : s.release.message <;> by_cases hp : s.playing = 0 <;>
    simp [ring_call_channel_hangup, ring_call_channel_shutdown_modem, Step.andThen, hci, hc,
      hq, hm, hp, ring_conference_channel_emit_channel_removed, ring_member_channel_left,
      releaseRequests_append, releaseRequests_cancel, endedReasons_append,
      endedReasons_cancel] <;>
    simp [releaseRequests, endedReasons]

/-- C14 at work: hangup with "bye" on the active session. -/
theorem C14_hangup_requests_release_only_witness :
    activeSession.call_instance = some 3 ∧
    (ring_call_channel_hangup activeSession 0 "" (some "bye")).1.release.message
      = some "bye" ∧
    releaseRequests (ring_call_channel_hangup activeSession 0 "" (some "bye")).2 = [3] ∧
    endedReasons (ring_call_channel_hangup activeSession 0 "" (some "bye")).2 = [] :=
  have h := C14_hangup_requests_release_only activeSession 3 0 "" (some "bye") rfl
  ⟨rfl, h.1, h.2.1, h.2.2.1⟩

/-! ## C15 and C16: accept -/

/-- C15: accept on a locally requested session whose peer is its target.
With a destination that fails the address check the call state is set to
Ended with reason invalid-contact, no create-call request is issued and
the pending create request is as before. With a destination that passes
the check and is not empty one create-call request is issued, and when the
backend hands back a request it becomes the pending create request and no
transition to Ended is reported. When the backend hands back no request,
`ring_call_channel_create` returns `NULL` without an error and accept
dereferences it: the source aborts before any transition to Ended. -/
theorem C15_accept_outgoing (env : Env) (s : RingCallChannel)
    (dial : Option ModemRequest) (ci_state : ModemCallState)
    (hq : s.is_requested = true) (hp : s.peer_handle = s.target_handle) :
    (env.is_valid_address (env.inspect_contact s.target_handle) = false →
      ring_call_channel_accept env s dial ci_state =
        some ({ s with call_state := TP_CALL_STATE_ENDED },
          [Effect.set_state TP_CALL_STATE_ENDED 0 TP_CALL_STATE_CHANGE_REASON_INVALID_CONTACT
            TP_ERROR_STR_INVALID_HANDLE "Invalid destination"])) ∧
    (env.is_valid_address (env.inspect_contact s.target_handle) = true →
      RING_STR_EMPTY (env.inspect_contact s.target_handle) = false →
      ∀ r, dial = some r →
        ∃ res, ring_call_channel_accept env s dial ci_state = some res ∧
          (dialRequests res.2).length = 1 ∧ endedReasons res.2 = [] ∧
          res.1.creating_call = some r ∧ res.1.call_state = s.call_state) ∧
    (env.is_valid_address (env.inspect_contact s.target_handle) = true →
      RING_STR_EMPTY (env.inspect_contact s.target_handle) = false →
      dial = none →
        ring_call_channel_accept env s dial ci_state = none) := by
  refine ⟨?_, ?_, ?_⟩
  · intro hv
    simp [ring_call_channel_accept, hq, hv, tp_base_call_channel_set_state]
  · intro hv hne r hr
    subst hr
    refine ⟨_, by simp [ring_call_channel_accept, ring_call_channel_create, hq, hv, hp, hne]; rfl,
      ?_, ?_, ?_, ?_⟩ <;>
    simp [dialRequests, endedReasons]
  · intro hv hne hd
    subst hd
    simp [ring_call_channel_accept, ring_call_channel_create, hq, hv, hp, hne]

/-- C15 at the failing input: the fresh outgoing session to peer 7, a valid
destination, and a backend that hands back no request for the create-call
request. -/
theorem C15_accept_outgoing_witness :
    (fresh true 7).is_requested = true ∧
    env0.is_valid_address (env0.inspect_contact (fresh true 7).target_handle) = true ∧
    RING_STR_EMPTY (env0.inspect_contact (fresh true 7).target_handle) = false ∧
    ring_call_channel_accept env0 (fresh true 7) none ModemCallState.INVALID = none :=
  ⟨rfl, rfl, rfl,
    (C15_accept_outgoing env0 (fresh true 7) none ModemCallState.INVALID rfl rfl).2.2
      rfl rfl rfl⟩

/-- C16: accept on an incoming session. Without backend handle, or with a
backend handle whose state is Disconnected, nothing is issued and the
session is unchanged. In every other case the call is marked as locally
accepted (an earlier mark is kept) and exactly one answer request is
issued for the backend handle. -/
theorem C16_accept_incoming (env : Env) (s : RingCallChannel)
    (dial : Option ModemRequest) (ci_state : ModemCallState)
    (hq : s.is_requested = false) :
    ((s.call_instance = none ∨ ci_state = ModemCallState.DISCONNECTED) →
      ring_call_channel_accept env s dial ci_state = some (s, [])) ∧
    (∀ ci, s.call_instance = some ci → ci_state ≠ ModemCallState.DISCONNECTED →
      ring_call_channel_accept env s dial ci_state =
        some ({ s with accepted := some (s.accepted.getD "Call accepted") },
          [Effect.request_answer ci])) := by
  refine ⟨?_, ?_⟩
  · rintro (h | h)
    · simp [ring_call_channel_accept, hq, h]
    · cases hc : s.call_instance <;> simp [ring_call_channel_accept, hq, h, hc]
  · intro ci hci hst
    cases ha : s.accepted <;> simp [ring_call_channel_accept, hq, hci, hst, ha]
    cases s
    simp_all

/-- C16 at work: the incoming session with call 3 is accepted while the
call is Incoming, and left alone while it is Disconnected. -/
theorem C16_accept_incoming_witness :
    incomingSession.is_requested = false ∧
    ring_call_channel_accept env0 incomingSession none ModemCallState.DISCONNECTED =
      some (incomingSession, []) ∧
    ring_call_channel_accept env0 incomingSession none ModemCallState.INCOMING =
      some ({ incomingSession with accepted := some "Call accepted" },
        [Effect.request_answer 3]) :=
  have h := C16_accept_incoming env0 incomingSession none ModemCallState.INCOMING rfl
  have h2 := C16_accept_incoming env0 incomingSession none ModemCallState.DISCONNECTED rfl
  ⟨rfl, h2.1 (Or.inr rfl), h.2 3 rfl (by decide)⟩

/-! ## C17 to C19: conference membership -/

/-- C17: `ring_member_channel_can_become_member` on a session succeeds if
and only if the session has a non-zero peer handle, is in no conference,
has a backend handle and the backend says the call can join. The four
failures are tested in this order, each one only when the earlier tests
passed, and their errors differ from one another: the first three share
the code InvalidArgument and differ in their message, the fourth has the
code NotAvailable. -/
theorem C17_can_become_member (env : Env) (s : RingCallChannel) (can_join : Bool)
    (ci_state : ModemCallState) :
    (ring_member_channel_can_become_member env (some s) can_join ci_state = none ↔
      s.peer_handle ≠ 0 ∧ s.member_conference = none ∧ s.call_instance.isSome = true ∧
        can_join = true) ∧
    (s.peer_handle = 0 →
      ring_member_channel_can_become_member env (some s) can_join ci_state =
        some (TpError.INVALID_ARGUMENT, "Member channel has no target")) ∧
    (s.peer_handle ≠ 0 → s.member_conference.isSome = true →
      ring_member_channel_can_become_member env (some s) can_join ci_state =
        some (TpError.INVALID_ARGUMENT, "Member channel is already in conference")) ∧
    (s.peer_handle ≠ 0 → s.member_conference = none → s.call_instance = none →
      ring_member_channel_can_become_member env (some s) can_join ci_state =
        some (TpError.INVALID_ARGUMENT, "Member channel has no ongoing call")) ∧
    (s.peer_handle ≠ 0 → s.member_conference = none → s.call_instance.isSome = true →
      can_join = false →
      ring_member_channel_can_become_member env (some s) can_join ci_state =
        some (TpError.NOT_AVAILABLE, "Member channel in state " ++ env.state_name ci_state)) ∧
    [(TpError.INVALID_ARGUMENT, "Member channel has no target"),
     (TpError.INVALID_ARGUMENT, "Member channel is already in conference"),
     (TpError.INVALID_ARGUMENT, "Member channel has no ongoing call"),
     (TpError.NOT_AVAILABLE, "Member channel in state " ++ env.state_name ci_state)].Nodup := by
  refine ⟨?_, ?_, ?_, ?_, ?_, ?_⟩
  · unfold ring_member_channel_can_become_member
    cases hc : s.member_conference <;> cases hi : s.call_instance <;> cases can_join <;>
      by_cases hp : s.peer_handle = 0 <;> simp [hp, hc, hi]
  · intro hp
    simp [ring_member_channel_can_become_member, hp]
  · intro hp hc
    simp [ring_member_channel_can_become_member, hp, hc]
  · intro hp hc hi
    simp [ring_member_channel_can_become_member, hp, hc, hi]
  · intro hp hc hi hj
    simp [ring_member_channel_can_become_member, hp, hc, hi, hj]
    intro h
    simp [h] at hi
  · have h1 : ("Member channel has no target" : String)
        ≠ "Member channel is already in conference" := by decide
    have h2 : ("Member channel has no target" : String)
        ≠ "Member channel has no ongoing call" := by decide
    have h3 : ("Member channel is already in conference" : String)
        ≠ "Member channel has no ongoing call" := by decide
    have h4 : TpError.INVALID_ARGUMENT ≠ TpError.NOT_AVAILABLE := by decide
    simp [h1, h2, h3, h4]

/-- C17 at work: the active session can join, its copy in conference 5
cannot. -/
theorem C17_can_become_member_witness :
    ring_member_channel_can_become_member env0 (some activeSession) true
      ModemCallState.ACTIVE = none ∧
    ring_member_channel_can_become_member env0 (some memberSession) true
      ModemCallState.ACTIVE =
        some (TpError.INVALID_ARGUMENT, "Member channel is already in conference") :=
  have h := C17_can_become_member env0 activeSession true ModemCallState.ACTIVE
  have h2 := C17_can_become_member env0 memberSession true ModemCallState.ACTIVE
  ⟨h.1.mpr ⟨by decide, rfl, rfl, rfl⟩, h2.2.2.1 (by decide) rfl⟩

/-- C18: `ring_member_channel_left` leaves the session in no conference and
changes no other field; on a session that is in no conference it changes
nothing; and leaving twice is leaving once. The function returns nothing, so
there is no error to raise. -/
theorem C18_left_clears_conference_only (s : RingCallChannel) :
    (ring_member_channel_left s).member_conference = none ∧
    ring_member_channel_left s = { s with member_conference := none } ∧
    (s.member_conference = none → ring_member_channel_left s = s) ∧
    ring_member_channel_left (ring_member_channel_left s) = ring_member_channel_left s := by
  cases hc : s.member_conference <;> simp [ring_member_channel_left, hc]
  cases s
  simp_all

/-- C18 at work: the fresh session is in no conference and stays as it is. -/
theorem C18_left_clears_conference_only_witness :
    (fresh true 7).member_conference = none ∧
    ring_member_channel_left (fresh true 7) = fresh true 7 :=
  ⟨rfl, (C18_left_clears_conference_only (fresh true 7)).2.2.1 rfl⟩

/-- C19: on a backend multiparty notification, a session that is recorded
as member of a conference while the flag is false is removed from that
conference with message "Conference call split", actor 0 and reason
separated, and is in no conference afterwards, nothing else of it changing;
a session in no conference, or a flag that is true, changes nothing and
reports nothing. -/
theorem C19_multiparty_false_leaves_conference (s : RingCallChannel) (multiparty : Bool) :
    (∀ conference, s.member_conference = some conference → multiparty = false →
      on_modem_call_notify_multiparty s multiparty =
        ({ s with member_conference := none },
          [Effect.channel_removed conference (some "Conference call split") 0
            TP_CHANNEL_GROUP_CHANGE_REASON_SEPARATED])) ∧
    ((s.member_conference = none ∨ multiparty = true) →
      on_modem_call_notify_multiparty s multiparty = (s, [])) := by
  refine ⟨?_, ?_⟩
  · intro conference hc hm
    simp [on_modem_call_notify_multiparty, hc, hm,
      ring_conference_channel_emit_channel_removed, ring_member_channel_left]
  · rintro (h | h)
    · simp [on_modem_call_notify_multiparty, h]
    · cases hc : s.member_conference <;> simp [on_modem_call_notify_multiparty, h, hc]

/-- C19 at work: the member of conference 5 loses the multiparty flag. -/
theorem C19_multiparty_false_leaves_conference_witness :
    memberSession.member_conference = some 5 ∧
    on_modem_call_notify_multiparty memberSession false =
      ({ memberSession with member_conference := none },
        [Effect.channel_removed 5 (some "Conference call split") 0
          TP_CHANNEL_GROUP_CHANGE_REASON_SEPARATED]) ∧
    on_modem_call_notify_multiparty memberSession true = (memberSession, []) :=
  have h := C19_multiparty_false_leaves_conference memberSession false
  have h2 := C19_multiparty_false_leaves_conference memberSession true
  ⟨rfl, h.1 5 rfl rfl, h2.2 (Or.inr rfl)⟩

/-! ## C20: sending digits -/

/-- C20: `ring_call_channel_send_dialstring`, whatever `id`, `duration` and
`pause` are, never changes the session. It fails with NotAvailable exactly
when the session has no backend handle. With a backend handle it fails with
InvalidArgument exactly when the backend rejects the digit string, and
otherwise hands the digits to the backend once and succeeds; when it fails
it hands nothing to the backend. -/
theorem C20_send_dialstring (env : Env) (s : RingCallChannel) (id : Nat)
    (dialstring : String) (duration pause : Nat) :
    (ring_call_channel_send_dialstring env s id dialstring duration pause).1.1 = s ∧
    ((ring_call_channel_send_dialstring env s id dialstring duration pause).2 =
        some (TpError.NOT_AVAILABLE, "Channel is not connected") ↔ s.call_instance = none) ∧
    ((∃ m, (ring_call_channel_send_dialstring env s id dialstring duration pause).2 =
        some (TpError.NOT_AVAILABLE, m)) ↔ s.call_instance = none) ∧
    (∀ ci, s.call_instance = some ci →
      ((ring_call_channel_send_dialstring env s id dialstring duration pause).2 =
          some (TpError.INVALID_ARGUMENT, "Bad dial string") ↔
        env.dtmf_accepted dialstring = false) ∧
      (env.dtmf_accepted dialstring = true →
        ring_call_channel_send_dialstring env s id dialstring duration pause =
          ((s, [Effect.send_dtmf ci dialstring]), none))) ∧
    ((ring_call_channel_send_dialstring env s id dialstring duration pause).2.isSome = true →
      (ring_call_channel_send_dialstring env s id dialstring duration pause).1.2 = []) := by
  cases hc : s.call_instance <;> cases hd : env.dtmf_accepted dialstring <;>
    simp [ring_call_channel_send_dialstring, hc, hd]

/-- C20 at work: digits sent on the active session, and on the fresh one. -/
theorem C20_send_dialstring_witness :
    ring_call_channel_send_dialstring env0 activeSession 1 "123" 0 0 =
      ((activeSession, [Effect.send_dtmf 3 "123"]), none) ∧
    (ring_call_channel_send_dialstring env0 (fresh true 7) 1 "123" 0 0).2 =
      some (TpError.NOT_AVAILABLE, "Channel is not connected") :=
  have h := C20_send_dialstring env0 activeSession 1 "123" 0 0
  have h2 := C20_send_dialstring env0 (fresh true 7) 1 "123" 0 0
  ⟨(h.2.2.2.1 3 rfl).2 rfl, h2.2.1.mpr rfl⟩

/-! ## C24 and C25: the call member registry -/

theorem lookup_cons_self (k : TpHandle) (v : RingCallMember) (rest : Members) :
    g_hash_table_lookup ((k, v) :: rest) k = some v := by
  simp [g_hash_table_lookup, List.lookup]

theorem lookup_cons_other (k other : TpHandle) (v : RingCallMember) (rest : Members)
    (hne : other ≠ k) :
    g_hash_table_lookup ((k, v) :: rest) other = g_hash_table_lookup rest other := by
  have hb : (other == k) = false := by simpa using hne
  simp [g_hash_table_lookup, List.lookup, hb]

theorem remove_cons_self (k : TpHandle) (v : RingCallMember) (rest : Members) :
    g_hash_table_remove ((k, v) :: rest) k = g_hash_table_remove rest k := by
  simp [g_hash_table_remove, List.filter_cons]

theorem remove_cons_other (k handle : TpHandle) (v : RingCallMember) (rest : Members)
    (hne : k ≠ handle) :
    g_hash_table_remove ((k, v) :: rest) handle =
      (k, v) :: g_hash_table_remove rest handle := by
  simp [g_hash_table_remove, List.filter_cons, hne]

theorem lookup_remove_self (members : Members) (handle : TpHandle) :
    g_hash_table_lookup (g_hash_table_remove members handle) handle = none := by
  induction members with
  | nil => rfl
  | cons e rest ih =>
    obtain ⟨k, v⟩ := e
    by_cases h : k = handle
    · subst h
      rw [remove_cons_self]; exact ih
    · rw [remove_cons_other k handle v rest h,
        lookup_cons_other k handle v _ (fun x => h x.symm)]
      exact ih

theorem lookup_remove_other (members : Members) (handle other : TpHandle)
    (hne : other ≠ handle) :
    g_hash_table_lookup (g_hash_table_remove members handle) other =
      g_hash_table_lookup members other := by
  induction members with
  | nil => rfl
  | cons e rest ih =>
    obtain ⟨k, v⟩ := e
    by_cases h : k = handle
    · subst h
      rw [remove_cons_self, lookup_cons_other k other v rest hne]; exact ih
    · rw [remove_cons_other k handle v rest h]
      by_cases h3 : other = k
      · subst h3
        rw [lookup_cons_self, lookup_cons_self]
      · rw [lookup_cons_other k other v _ h3, lookup_cons_other k other v _ h3]
        exact ih

theorem lookup_insert_self (members : Members) (handle : TpHandle) (m : RingCallMember) :
    g_hash_table_lookup (g_hash_table_insert members handle m) handle = some m := by
  unfold g_hash_table_insert
  exact lookup_cons_self _ _ _

theorem lookup_insert_other (members : Members) (handle other : TpHandle)
    (m : RingCallMember) (hne : other ≠ handle) :
    g_hash_table_lookup (g_hash_table_insert members handle m) other =
      g_hash_table_lookup members other := by
  unfold g_hash_table_insert
  rw [lookup_cons_other handle other m _ hne]
  exact lookup_remove_other members handle other hne

/-- C24: `ring_base_call_channel_ensure_member_from_handle` returns the
member already registered for the handle when there is one, leaving the
registry as it is and reporting nothing. Otherwise it registers the newly
created member for the handle and reports that member's flags exactly once,
with actor 0 and reason progress-made. In both cases a lookup of the handle
afterwards gives the member returned, and a lookup of any other handle
gives what it gave before. -/
theorem C24_ensure_member (members : Members) (handle : TpHandle)
    (created : RingCallMember) :
    (∀ m, ring_base_call_channel_get_member_from_handle members handle = some m →
      ring_base_call_channel_ensure_member_from_handle members handle created
        = (members, m, [])) ∧
    (ring_base_call_channel_get_member_from_handle members handle = none →
      (ring_base_call_channel_ensure_member_from_handle members handle created).2.1
        = created ∧
      flagReports
        (ring_base_call_channel_ensure_member_from_handle members handle created).2.2
        = [(created.handle, created.flags, 0, TP_CALL_STATE_CHANGE_REASON_PROGRESS_MADE)]) ∧
    ring_base_call_channel_get_member_from_handle
        (ring_base_call_channel_ensure_member_from_handle members handle created).1 handle
      = some (ring_base_call_channel_ensure_member_from_handle members handle created).2.1 ∧
    (∀ other, other ≠ handle →
      ring_base_call_channel_get_member_from_handle
          (ring_base_call_channel_ensure_member_from_handle members handle created).1 other
        = ring_base_call_channel_get_member_from_handle members other) := by
  unfold ring_base_call_channel_get_member_from_handle
    ring_base_call_channel_ensure_member_from_handle
  cases hl : g_hash_table_lookup members handle with
  | some m =>
    refine ⟨?_, ?_, ?_, ?_⟩
    · intro m2 h2; cases h2; rfl
    · intro h; cases h
    · exact hl
    · intro other _; rfl
  | none =>
    refine ⟨?_, ?_, ?_, ?_⟩
    · intro m2 h2; cases h2
    · intro _; exact ⟨rfl, rfl⟩
    · exact lookup_insert_self _ _ _
    · intro other hne; exact lookup_insert_other _ _ _ _ hne

/-- C24 at work: handle 7 is registered, handle 8 is not. -/
theorem C24_ensure_member_witness :
    ring_base_call_channel_ensure_member_from_handle members0 7
        { id := 3, handle := 7, flags := 0 }
      = (members0, { id := 1, handle := 7, flags := 0 }, []) ∧
    flagReports (ring_base_call_channel_ensure_member_from_handle members0 8
        { id := 3, handle := 8, flags := 0 }).2.2
      = [(8, 0, 0, TP_CALL_STATE_CHANGE_REASON_PROGRESS_MADE)] :=
  have h := C24_ensure_member members0 7 { id := 3, handle := 7, flags := 0 }
  have h2 := C24_ensure_member members0 8 { id := 3, handle := 8, flags := 0 }
  ⟨h.1 _ rfl, (h2.2.1 rfl).2⟩

/-- C25: `ring_base_call_channel_remove_member` on a member that the
registry holds under the member's handle shuts the member down, reports
exactly one removal, of that handle, with actor 0 and reason progress-made,
and leaves a registry in which the handle has no member and every other
handle has the member it had. On any other member it fails its assertion:
nothing is shut down, reported or removed. -/
theorem C25_remove_member (members : Members) (member : RingCallMember) :
    (ring_base_call_channel_get_member_from_handle members member.handle = some member →
      ring_base_call_channel_remove_member members member =
        some (g_hash_table_remove members member.handle,
          [BaseEffect.member_shutdown member,
           BaseEffect.remove_member member.handle 0
             TP_CALL_STATE_CHANGE_REASON_PROGRESS_MADE]) ∧
      removalReports [BaseEffect.member_shutdown member,
          BaseEffect.remove_member member.handle 0
            TP_CALL_STATE_CHANGE_REASON_PROGRESS_MADE] =
        [(member.handle, 0, TP_CALL_STATE_CHANGE_REASON_PROGRESS_MADE)] ∧
      ring_base_call_channel_get_member_from_handle
        (g_hash_table_remove members member.handle) member.handle = none ∧
      ∀ other, other ≠ member.handle →
        ring_base_call_channel_get_member_from_handle
            (g_hash_table_remove members member.handle) other =
          ring_base_call_channel_get_member_from_handle members other) ∧
    (ring_base_call_channel_get_member_from_handle members member.handle ≠ some member →
      ring_base_call_channel_remove_member members member = none) := by
  unfold ring_base_call_channel_get_member_from_handle ring_base_call_channel_remove_member
  refine ⟨?_, ?_⟩
  · intro h
    rw [if_pos h]
    exact ⟨rfl, rfl, lookup_remove_self _ _,
      fun other hne => lookup_remove_other _ _ _ hne⟩
  · intro h
    rw [if_neg h]

/-- C25 at work: the member of handle 9 is removed; an object that is not
the registered member of handle 7 is refused. -/
theorem C25_remove_member_witness :
    ring_base_call_channel_remove_member members0 { id := 2, handle := 9, flags := 1 } =
      some ([(7, { id := 1, handle := 7, flags := 0 })],
        [BaseEffect.member_shutdown { id := 2, handle := 9, flags := 1 },
         BaseEffect.remove_member 9 0 TP_CALL_STATE_CHANGE_REASON_PROGRESS_MADE]) ∧
    ring_base_call_channel_remove_member members0 { id := 5, handle := 7, flags := 0 } = none :=
  have h := C25_remove_member members0 { id := 2, handle := 9, flags := 1 }
  have h2 := C25_remove_member members0 { id := 5, handle := 7, flags := 0 }
  ⟨(h.1 rfl).1, h2.2 (by decide)⟩

theorem released_core (s : RingCallChannel) (actor : TpHandle) (reason : Nat)
    (message : Option String) (error : Option GError) (debug : Option String) :
    core (ring_call_channel_released s actor reason message error debug).1 = core s ∧
    (ring_call_channel_released s actor reason message error debug).1.originating
      = s.originating ∧
    (ring_call_channel_released s actor reason message error debug).1.terminating
      = s.terminating := by
  unfold ring_call_channel_released
  by_cases h : s.released = true
  · simp [h]
  · simp only [h]
    cases hc : s.member_conference <;>
      by_cases hs : s.call_state = TP_CALL_STATE_ENDED <;>
      simp [Step.andThen, hc, hs, ring_conference_channel_emit_channel_removed,
        ring_member_channel_left, tp_base_call_channel_set_state, core]

theorem mo_release_core (env : Env) (s : RingCallChannel) (causetype cause : Nat) :
    core (on_modem_call_state_mo_release env s causetype cause).1 = core s ∧
    (on_modem_call_state_mo_release env s causetype cause).1.originating = s.originating ∧
    (on_modem_call_state_mo_release env s causetype cause).1.terminating = s.terminating := by
  unfold on_modem_call_state_mo_release
  simp only
  split
  · split <;> exact released_core _ _ _ _ _ _
  · exact released_core _ _ _ _ _ _

theorem active_core (env : Env) (s : RingCallChannel) :
    core (on_modem_call_state_active env s).1 = core s ∧
    (on_modem_call_state_active env s).1.originating = s.originating ∧
    (on_modem_call_state_active env s).1.terminating = s.terminating := by
  unfold on_modem_call_state_active
  cases hd : s.dial2nd <;> cases hi : s.call_instance <;>
    simp [Step.andThen, tp_base_call_channel_set_state, core,
      ring_call_channel_send_dialstring, hi]
  split <;> simp

/-- What a backend state notification does to the origin flags and to the
stored call state, the tone token and the hold block. -/
theorem update_state_origin (env : Env) (s : RingCallChannel) (state : ModemCallState)
    (causetype cause : Nat) :
    core (ring_call_channel_update_state env s state causetype cause).1 = core s ∧
    (ring_call_channel_update_state env s state causetype cause).1.originating
      = (s.originating || state == ModemCallState.DIALING) ∧
    (ring_call_channel_update_state env s state causetype cause).1.terminating
      = (s.terminating || state == ModemCallState.INCOMING) := by
  cases state <;>
    simp only [ring_call_channel_update_state, Step.andThen, play_tone_eq,
      play_error_tone_eq, on_modem_call_state_mo_alerting, set_peer_flags_fst]
  · simp
  · obtain ⟨a, b, c⟩ := active_core env s
    exact ⟨a, by rw [b]; simp, by rw [c]; simp⟩
  · simp
  · cases h : s.originating <;> simp [on_modem_call_state_dialing, h, core]
  · simp
  · cases h : s.terminating <;> simp [on_modem_call_state_incoming, h, core]
  · simp
  · obtain ⟨a, b, c⟩ := mo_release_core env s causetype cause
    exact ⟨a, by rw [b]; simp, by rw [c]; simp⟩

theorem or_ringing_ne (x : Nat) (h : x &&& TP_CALL_MEMBER_FLAG_RINGING = 0) :
    x ||| TP_CALL_MEMBER_FLAG_RINGING ≠ x := by
  intro e
  unfold TP_CALL_MEMBER_FLAG_RINGING at *
  have h1 := congrArg (fun y => y.testBit 0) e
  simp only [Nat.testBit_or] at h1
  rw [Nat.and_one_is_mod] at h
  simp [Nat.testBit_zero, h] at h1

theorem notify_origin (env : Env) (ns : List (ModemCallState × Nat × Nat)) :
    ∀ s : RingCallChannel,
      (notify env s ns).1.originating
        = (s.originating || ns.any fun n => n.1 == ModemCallState.DIALING) ∧
      (notify env s ns).1.terminating
        = (s.terminating || ns.any fun n => n.1 == ModemCallState.INCOMING) := by
  induction ns with
  | nil => intro s; simp [notify]
  | cons n ns ih =>
    intro s
    obtain ⟨_, ho, ht⟩ := update_state_origin env s n.1 n.2.1 n.2.2
    obtain ⟨io, it⟩ := ih (ring_call_channel_update_state env s n.1 n.2.1 n.2.2).1
    simp only [notify, Step.andThen, List.any_cons]
    rw [io, it, ho, ht]
    simp [Bool.or_assoc]

/-- C21 as stated fails: after a Dialing notification has set originating,
a later Incoming notification sets terminating as well, and both flags are
true. -/
theorem C21_counterexample :
    (notify env0 (fresh false 7) [(ModemCallState.DIALING, 0, 0)]).1.originating = true ∧
    (notify env0 (fresh false 7) [(ModemCallState.DIALING, 0, 0)]).1.terminating = false ∧
    (notify env0 (fresh false 7)
      [(ModemCallState.DIALING, 0, 0), (ModemCallState.INCOMING, 0, 0)]).1.originating = true ∧
    (notify env0 (fresh false 7)
      [(ModemCallState.DIALING, 0, 0), (ModemCallState.INCOMING, 0, 0)]).1.terminating = true :=
  ⟨rfl, rfl, rfl, rfl⟩

/-- C21, amended: after every sequence of backend state notifications,
originating is true exactly when it was true before or one of the
notifications was Dialing, and terminating is true exactly when it was true
before or one of the notifications was Incoming. A flag that is set is
never cleared by a notification; the two flags are set independently of
each other. -/
theorem C21_origin_flags_set_never_cleared (env : Env) (s : RingCallChannel)
    (ns : List (ModemCallState × Nat × Nat)) :
    (notify env s ns).1.originating
      = (s.originating || ns.any fun n => n.1 == ModemCallState.DIALING) ∧
    (notify env s ns).1.terminating
      = (s.terminating || ns.any fun n => n.1 == ModemCallState.INCOMING) :=
  notify_origin env ns s

/-- C22: a backend Alerting notification on a session whose peer flags do
not include ringing leaves the session, its stored peer flags included, as
it was, and reports to the observers the stored flags, without the ringing
flag: `ring_call_channel_set_peer_flags` computes the new flags but neither
stores nor reports them. -/
theorem C22_alerting_reports_stored_flags (env : Env) (s : RingCallChannel)
    (causetype cause : Nat) (h : s.peer_flags &&& TP_CALL_MEMBER_FLAG_RINGING = 0) :
    ring_call_channel_update_state env s ModemCallState.ALERTING causetype cause =
      (s, [Effect.update_member_flags s.peer_handle s.peer_flags s.peer_handle
        TP_CALL_STATE_CHANGE_REASON_USER_REQUESTED]) := by
  have hne := or_ringing_ne s.peer_flags h
  simp [ring_call_channel_update_state, Step.andThen, play_tone_eq,
    on_modem_call_state_mo_alerting, ring_call_channel_set_peer_flags, hne]

/-- C22 at the failing input: the fresh outgoing session, peer flags 0, is
told that the peer is Alerting. -/
theorem C22_alerting_reports_stored_flags_witness :
    (fresh true 7).peer_flags &&& TP_CALL_MEMBER_FLAG_RINGING = 0 ∧
    ring_call_channel_update_state env0 (fresh true 7) ModemCallState.ALERTING 0 0 =
      (fresh true 7, [Effect.update_member_flags 7 0 7
        TP_CALL_STATE_CHANGE_REASON_USER_REQUESTED]) :=
  ⟨rfl, C22_alerting_reports_stored_flags env0 (fresh true 7) 0 0 rfl⟩

/-- C23: a backend Active notification, whatever the session. Afterwards no
second-stage dial string is queued and the externally visible call state is
Active; exactly one transition is reported, to Active with reason user
requested. A queued second-stage dial string is handed to the backend
once, as one DTMF string on the live call, when the call is live and the
backend takes the string, and not at all otherwise; without a queued
string nothing is sent. A further Active notification sends no DTMF and
reports the transition to Active again. -/
theorem C23_active_sends_dial2nd_once (env : Env) (s : RingCallChannel)
    (causetype cause : Nat) :
    (ring_call_channel_update_state env s ModemCallState.ACTIVE causetype cause).1.dial2nd
      = none ∧
    (ring_call_channel_update_state env s ModemCallState.ACTIVE causetype cause).1.call_state
      = TP_CALL_STATE_ACTIVE ∧
    stateChanges (ring_call_channel_update_state env s ModemCallState.ACTIVE causetype cause).2
      = [(TP_CALL_STATE_ACTIVE, TP_CALL_STATE_CHANGE_REASON_USER_REQUESTED)] ∧
    dtmfSent (ring_call_channel_update_state env s ModemCallState.ACTIVE causetype cause).2
      = (match s.dial2nd, s.call_instance with
          | some digits, some ci => if env.dtmf_accepted digits then [(ci, digits)] else []
          | _, _ => []) ∧
    ∀ causetype2 cause2 : Nat,
      dtmfSent (ring_call_channel_update_state env
        (ring_call_channel_update_state env s ModemCallState.ACTIVE causetype cause).1
        ModemCallState.ACTIVE causetype2 cause2).2 = [] ∧
      stateChanges (ring_call_channel_update_state env
        (ring_call_channel_update_state env s ModemCallState.ACTIVE causetype cause).1
        ModemCallState.ACTIVE causetype2 cause2).2
        = [(TP_CALL_STATE_ACTIVE, TP_CALL_STATE_CHANGE_REASON_USER_REQUESTED)] := by
  cases hd : s.dial2nd <;> cases hi : s.call_instance <;>
    by_cases hp : s.playing = 0 <;>
    simp [ring_call_channel_update_state, on_modem_call_state_active, Step.andThen,
      tp_base_call_channel_set_state, ring_call_channel_send_dialstring, stateChanges,
      dtmfSent, hd, hi, hp] <;>
    split <;> simp_all

/-- C29: `ring_call_channel_create` on a session whose destination is not
empty, when the backend hands back no request for the create-call request
it is sent: the create-call request is issued, no request is returned and
no error is set. An accept that gets there, on a locally requested session
whose destination passes the address check, has no error to read the
message from and aborts. With an empty destination no request is returned
and the error "Invalid handle" is set. -/
theorem C29_create_without_request_or_error (env : Env) (s : RingCallChannel)
    (ci_state : ModemCallState) :
    (RING_STR_EMPTY (env.inspect_contact s.peer_handle) = false →
      (ring_call_channel_create env s none).request = none ∧
      (ring_call_channel_create env s none).error = none ∧
      (dialRequests (ring_call_channel_create env s none).step.2).length = 1 ∧
      (s.is_requested = true →
        env.is_valid_address (env.inspect_contact s.target_handle) = true →
        ring_call_channel_accept env s none ci_state = none)) ∧
    (RING_STR_EMPTY (env.inspect_contact s.peer_handle) = true →
      ∀ dial, (ring_call_channel_create env s dial).request = none ∧
        (ring_call_channel_create env s dial).error
          = some { message := "Invalid handle", fqn := "" }) := by
  refine ⟨?_, ?_⟩
  · intro hne
    refine ⟨?_, ?_, ?_, ?_⟩
    · simp [ring_call_channel_create, hne]
    · simp [ring_call_channel_create, hne]
    · simp [ring_call_channel_create, hne, dialRequests]
    · intro hq hv
      simp [ring_call_channel_accept, ring_call_channel_create, hq, hv, hne]
  · intro he dial
    simp [ring_call_channel_create, he]

/-- C29 at the failing input: the fresh outgoing session to peer 7, whose
destination is "5551234", and a backend that hands back no request. -/
theorem C29_create_without_request_or_error_witness :
    RING_STR_EMPTY (env0.inspect_contact (fresh true 7).peer_handle) = false ∧
    (ring_call_channel_create env0 (fresh true 7) none).request = none ∧
    (ring_call_channel_create env0 (fresh true 7) none).error = none ∧
    (ring_call_channel_create env0 (fresh true 7) none).step.2
      = [Effect.request_dial "5551234" 0] ∧
    ring_call_channel_accept env0 (fresh true 7) none ModemCallState.INVALID = none :=
  have h := (C29_create_without_request_or_error env0 (fresh true 7)
    ModemCallState.INVALID).1 rfl
  ⟨rfl, h.1, h.2.1, rfl, h.2.2.2 rfl rfl⟩

theorem left_core (s : RingCallChannel) : core (ring_member_channel_left s) = core s := by
  unfold ring_member_channel_left; split <;> rfl

theorem shutdown_modem_core (s : RingCallChannel) (message : Option String) :
    core (ring_call_channel_shutdown_modem s message).1 = core s := by
  unfold ring_call_channel_shutdown_modem
  cases hc : s.member_conference <;> cases hi : s.call_instance <;>
    cases hr : s.creating_call <;>
    simp [hc, hi, hr, ring_conference_channel_emit_channel_removed,
      ring_member_channel_left, core] <;>
    split <;> simp_all

theorem close_core (s : RingCallChannel) : core (ring_call_channel_close s).1 = core s := by
  simpa [ring_call_channel_close, Step.andThen] using
    shutdown_modem_core s (some "Channel closed")

theorem hangup_core (s : RingCallChannel) (reason : Nat) (detailed_reason : String)
    (message : Option String) :
    core (ring_call_channel_hangup s reason detailed_reason message).1 = core s := by
  simpa [ring_call_channel_hangup, Step.andThen] using shutdown_modem_core s message

theorem stopped_playing_frame (s : RingCallChannel) (source : Nat) :
    (ring_call_channel_stopped_playing s source).1.state = s.state ∧
    (ring_call_channel_stopped_playing s source).1.hold = s.hold ∧
    ((ring_call_channel_stopped_playing s source).1.playing = s.playing ∨
      (ring_call_channel_stopped_playing s source).1.playing = 0) := by
  unfold ring_call_channel_stopped_playing
  split
  · simp only
    split
    · have h := close_core { s with playing := 0 }
      simp only [core, Prod.mk.injEq] at h
      exact ⟨h.1, h.2.2, Or.inr h.2.1⟩
    · exact ⟨rfl, rfl, Or.inr rfl⟩
  · exact ⟨rfl, rfl, Or.inl rfl⟩

theorem create_core (env : Env) (s : RingCallChannel) (dial : Option ModemRequest) :
    core (ring_call_channel_create env s dial).step.1 = core s := by
  unfold ring_call_channel_create
  simp only
  split_ifs <;> rfl

theorem accept_core (env : Env) (s : RingCallChannel) (dial : Option ModemRequest)
    (ci_state : ModemCallState) (r : Step)
    (hs : ring_call_channel_accept env s dial ci_state = some r) :
    core r.1 = core s := by
  simp only [ring_call_channel_accept] at hs
  by_cases h1 : s.is_requested = true
  · rw [if_pos h1] at hs
    by_cases h2 : (!env.is_valid_address (env.inspect_contact s.target_handle)) = true
    · rw [if_pos h2] at hs
      rw [← Option.some.inj hs]; rfl
    · rw [if_neg h2] at hs
      split at hs
      · rw [← Option.some.inj hs]; exact create_core _ _ _
      · split at hs
        · rw [← Option.some.inj hs]
          simp only [Step.andThen, tp_base_call_channel_set_state]
          exact create_core _ _ _
        · exact absurd hs (by simp)
  · rw [if_neg h1] at hs
    split at hs
    · rw [← Option.some.inj hs]
    · by_cases h3 : ci_state = ModemCallState.DISCONNECTED
      · rw [if_pos h3] at hs
        rw [← Option.some.inj hs]
      · rw [if_neg h3] at hs
        rw [← Option.some.inj hs]
        simp only
        split <;> rfl

theorem set_call_instance_core (s : RingCallChannel) (ci : Option ModemCall) :
    core (ring_call_channel_set_call_instance s ci).1 = core s := by
  unfold ring_call_channel_set_call_instance
  by_cases h : ci = s.call_instance
  · rw [if_pos h]
  · rw [if_neg h]
    cases ci with
    | none =>
      simp only [Option.isSome_none, Option.isNone_none, Bool.false_eq_true, if_false, true_and]
      split
      · rw [close_core]; rfl
      · rfl
    | some c => simp [core]

theorem dial_failed_core (env : Env) (s : RingCallChannel) (error : GError) :
    core (dial_failed env s error).1 = core s := by
  unfold dial_failed
  simp only [play_tone_eq]
  exact (released_core _ _ _ _ _ _).1

theorem reply_core (env : Env) (s : RingCallChannel)
    (request : Option ModemRequest) (ci : Option ModemCall) (error : Option GError)
    (r : Step) (hs : reply_to_modem_call_request_dial env s request ci error = some r) :
    core r.1 = core s := by
  have h0 : core (if request = s.creating_call then { s with creating_call := none } else s)
      = core s := by split <;> rfl
  simp only [reply_to_modem_call_request_dial] at hs
  cases ci with
  | some c =>
    simp only at hs
    split_ifs at hs
    all_goals
      rw [← Option.some.inj hs]
      simp only [Step.andThen]
      split_ifs
      · rw [(update_state_origin _ _ _ _ _).1, set_call_instance_core]
        try rfl
      · simp only
        rw [set_call_instance_core]
        try rfl
  | none =>
    cases error with
    | some e =>
      simp only at hs
      rw [← Option.some.inj hs, dial_failed_core]
      exact h0
    | none => simp at hs

theorem notify_multiparty_core (s : RingCallChannel) (multiparty : Bool) :
    core (on_modem_call_notify_multiparty s multiparty).1 = core s := by
  unfold on_modem_call_notify_multiparty
  split
  · split
    · exact left_core s
    · rfl
  · rfl



theorem update_hold_frame (s : RingCallChannel) (hold reason : Int) :
    (ring_update_hold s hold reason).1.1.state = s.state ∧
    (ring_update_hold s hold reason).1.1.playing = s.playing ∧
    (ring_update_hold s hold reason).1.1.hold.state = s.hold.state ∧
    (ring_update_hold s hold reason).1.1.hold.reason = s.hold.reason := by
  unfold ring_update_hold set_hold_state_properties
  simp only
  by_cases h1 : uint32 hold = s.hold.state
  · rw [if_pos h1]
    exact ⟨rfl, rfl, rfl, rfl⟩
  · rw [if_neg h1]
    by_cases h2 : hold = TP_LOCAL_HOLD_STATE_UNHELD
    · rw [if_pos h2]
      exact ⟨rfl, rfl, rfl, rfl⟩
    · rw [if_neg h2]
      by_cases h3 : hold = TP_LOCAL_HOLD_STATE_HELD
      · rw [if_pos h3]
        exact ⟨rfl, rfl, rfl, rfl⟩
      · rw [if_neg h3]
        by_cases h4 : hold = TP_LOCAL_HOLD_STATE_PENDING_HOLD ∨
            hold = TP_LOCAL_HOLD_STATE_PENDING_UNHOLD
        · rw [if_pos h4]
          exact ⟨rfl, rfl, rfl, rfl⟩
        · rw [if_neg h4]
          exact ⟨rfl, rfl, rfl, rfl⟩

theorem queue_frame (s : RingCallChannel) (request : Option ModemRequest) :
    (ring_call_channel_queue_request s request).state = s.state ∧
    (ring_call_channel_queue_request s request).playing = s.playing ∧
    (ring_call_channel_queue_request s request).hold = s.hold := by
  unfold ring_call_channel_queue_request; split <;> exact ⟨rfl, rfl, rfl⟩

theorem dequeue_frame (s : RingCallChannel) (request : Option ModemRequest) :
    (ring_call_channel_dequeue_request s request).state = s.state ∧
    (ring_call_channel_dequeue_request s request).playing = s.playing ∧
    (ring_call_channel_dequeue_request s request).hold = s.hold := by
  unfold ring_call_channel_dequeue_request; split <;> exact ⟨rfl, rfl, rfl⟩

theorem request_hold_frame (env : Env) (s : RingCallChannel) (hold : Bool)
    (backend : Option ModemRequest) :
    (request_hold env s hold backend).1.state = s.state ∧
    (request_hold env s hold backend).1.playing = s.playing ∧
    (request_hold env s hold backend).1.hold.state = s.hold.state := by
  unfold request_hold
  simp only
  cases hi : s.call_instance with
  | none => exact ⟨rfl, rfl, rfl⟩
  | some ci =>
    simp only
    split_ifs
    all_goals first
      | exact ⟨rfl, rfl, rfl⟩
      | exact ⟨(update_hold_frame _ _ _).1.trans (queue_frame _ _).1,
          (update_hold_frame _ _ _).2.1.trans (queue_frame _ _).2.1,
          (update_hold_frame _ _ _).2.2.1.trans (by
            show (ring_call_channel_queue_request _ _).hold.state = _
            rw [(queue_frame _ _).2.2])⟩

theorem response_to_hold_frame (s : RingCallChannel) (request : Option ModemRequest)
    (error : Option GError) :
    (response_to_hold s request error).1.state = s.state ∧
    (response_to_hold s request error).1.playing = s.playing ∧
    (response_to_hold s request error).1.hold.state = s.hold.state ∧
    (response_to_hold s request error).1.hold.reason = s.hold.reason := by
  have hh : (ring_call_channel_dequeue_request
      (if s.control = request then { s with control := none } else s) request).state
        = s.state ∧
      (ring_call_channel_dequeue_request
      (if s.control = request then { s with control := none } else s) request).playing
        = s.playing ∧
      (ring_call_channel_dequeue_request
      (if s.control = request then { s with control := none } else s) request).hold
        = s.hold := by
    obtain ⟨a, b, c⟩ := dequeue_frame
      (if s.control = request then { s with control := none } else s) request
    rw [a, b, c]
    split <;> exact ⟨rfl, rfl, rfl⟩
  unfold response_to_hold
  dsimp only
  generalize ring_call_channel_dequeue_request _ request = s2 at hh ⊢
  obtain ⟨a, b, c⟩ := hh
  by_cases he : error.isSome = true ∧ (s2.hold.requested : Int) ≠ -1
  · rw [if_pos he]
    simp only [Step.andThen]
    obtain ⟨f1, f2, f3, f4⟩ := update_hold_frame s2
      ((if s2.hold.requested ≠ 0 then TP_LOCAL_HOLD_STATE_UNHELD
        else TP_LOCAL_HOLD_STATE_HELD : Nat) : Int)
      TP_LOCAL_HOLD_STATE_REASON_RESOURCE_NOT_AVAILABLE
    refine ⟨(update_hold_frame _ _ _).1.trans (f1.trans a),
      (update_hold_frame _ _ _).2.1.trans (f2.trans b),
      (update_hold_frame _ _ _).2.2.1.trans (f3.trans (congrArg Hold.state c)),
      (update_hold_frame _ _ _).2.2.2.trans (f4.trans (congrArg Hold.reason c))⟩
  · rw [if_neg he]
    simp only [Step.andThen]
    exact ⟨(update_hold_frame _ _ _).1.trans a, (update_hold_frame _ _ _).2.1.trans b,
      (update_hold_frame _ _ _).2.2.1.trans (congrArg Hold.state c),
      (update_hold_frame _ _ _).2.2.2.trans (congrArg Hold.reason c)⟩

/-- One entry point leaves the stored backend call state and the stored
hold state as they were, and leaves the tone token as it was or clears
it. -/
theorem step_frame (env : Env) (s : RingCallChannel) (op : Op) (r : Step)
    (hs : step env s op = some r) :
    r.1.state = s.state ∧ (r.1.playing = s.playing ∨ r.1.playing = 0) ∧
    r.1.hold.state = s.hold.state := by
  have of_core : ∀ (t : RingCallChannel), core t = core s →
      t.state = s.state ∧ (t.playing = s.playing ∨ t.playing = 0) ∧
      t.hold.state = s.hold.state := by
    intro t h
    simp only [core, Prod.mk.injEq] at h
    exact ⟨h.1, Or.inl h.2.1, by rw [h.2.2]⟩
  cases op with
  | accept dial ci_state => exact of_core _ (accept_core env s dial ci_state r hs)
  | dial_reply request ci error => exact of_core _ (reply_core env s request ci error r hs)
  | hangup reason detailed message =>
    rw [← Option.some.inj hs]; exact of_core _ (hangup_core s reason detailed message)
  | close =>
    rw [← Option.some.inj hs]; exact of_core _ (close_core s)
  | update_state state causetype cause =>
    rw [← Option.some.inj hs]
    exact of_core _ (update_state_origin env s state causetype cause).1
  | on_hold onhold =>
    rw [← Option.some.inj hs]
    exact of_core _ (by rw [on_modem_call_on_hold, set_peer_flags_fst])
  | notify_multiparty multiparty =>
    rw [← Option.some.inj hs]; exact of_core _ (notify_multiparty_core s multiparty)
  | request_hold hold backend =>
    have h := request_hold_frame env s hold backend
    rw [← Option.some.inj hs]
    exact ⟨h.1, Or.inl h.2.1, h.2.2⟩
  | hold_reply request error =>
    have h := response_to_hold_frame s request error
    rw [← Option.some.inj hs]
    exact ⟨h.1, Or.inl h.2.1, h.2.2.1⟩
  | stopped_playing source =>
    have h := stopped_playing_frame s source
    rw [← Option.some.inj hs]
    exact ⟨h.1, h.2.2, by rw [h.2.1]⟩

theorem run_frame (env : Env) (ops : List Op) :
    ∀ (s : RingCallChannel) (r : Step), run env s ops = some r →
      r.1.state = s.state ∧ (r.1.playing = s.playing ∨ r.1.playing = 0) ∧
      r.1.hold.state = s.hold.state := by
  induction ops with
  | nil =>
    intro s r hr
    rw [← Option.some.inj hr]; exact ⟨rfl, Or.inl rfl, rfl⟩
  | cons op ops ih =>
    intro s r hr
    simp only [run] at hr
    cases hs : step env s op with
    | none => simp [hs] at hr
    | some r1 =>
      simp only [hs] at hr
      cases hr2 : run env r1.1 ops with
      | none => simp [hr2] at hr
      | some r2 =>
        simp only [hr2] at hr
        rw [← Option.some.inj hr]
        obtain ⟨a1, b1, c1⟩ := step_frame env s op r1 hs
        obtain ⟨a2, b2, c2⟩ := ih r1.1 r2 hr2
        refine ⟨a2.trans a1, ?_, c2.trans c1⟩
        rcases b2 with b2 | b2
        · rcases b1 with b1 | b1
          · exact Or.inl (b2.trans b1)
          · exact Or.inr (b2.trans b1)
        · exact Or.inr b2

theorem notify_core (env : Env) (ns : List (ModemCallState × Nat × Nat)) :
    ∀ s : RingCallChannel, core (notify env s ns).1 = core s := by
  induction ns with
  | nil => intro s; rfl
  | cons n ns ih =>
    intro s
    simp only [notify, Step.andThen]
    rw [ih, (update_state_origin env s n.1 n.2.1 n.2.2).1]



theorem update_hold_valid (s : RingCallChannel) (hold reason : Int)
    (h0 : 0 ≤ hold) (h3 : hold ≤ 3) (hne : uint32 hold ≠ s.hold.state) :
    ∃ chosen : Int, (reason ≠ 0 → chosen = reason) ∧
      (ring_update_hold s hold reason).1.2
        = [Effect.hold_state_changed hold.toNat (uint32 chosen)] ∧
      (ring_update_hold s hold reason).2 = 0 := by
  have hcases : hold = 0 ∨ hold = 1 ∨ hold = 2 ∨ hold = 3 := by omega
  unfold ring_update_hold
  simp only
  rw [if_neg hne]
  rcases hcases with h | h | h | h <;> subst h
  · rw [if_pos (by rfl)]
    exact ⟨_, fun hr => by rw [if_pos hr], rfl, rfl⟩
  · rw [if_neg (by decide), if_pos (by rfl)]
    exact ⟨_, fun hr => by rw [if_pos hr], rfl, rfl⟩
  · rw [if_neg (by decide), if_neg (by decide), if_pos (Or.inl (by rfl))]
    exact ⟨reason, fun _ => rfl, rfl, rfl⟩
  · rw [if_neg (by decide), if_neg (by decide), if_pos (Or.inr (by rfl))]
    exact ⟨reason, fun _ => rfl, rfl, rfl⟩

theorem update_hold_nothing (s : RingCallChannel) (hold reason : Int)
    (h : uint32 hold = s.hold.state ∨ hold < 0 ∨ 3 < hold) :
    (ring_update_hold s hold reason).1 = (s, []) := by
  unfold ring_update_hold
  simp only
  by_cases h1 : uint32 hold = s.hold.state
  · rw [if_pos h1]
  · rw [if_neg h1]
    have hr : hold < 0 ∨ 3 < hold := by
      rcases h with h | h
      · exact absurd h h1
      · exact h
    have e0 : ¬ hold = (TP_LOCAL_HOLD_STATE_UNHELD : Nat) := by
      simp only [TP_LOCAL_HOLD_STATE_UNHELD]; omega
    have e1 : ¬ hold = (TP_LOCAL_HOLD_STATE_HELD : Nat) := by
      simp only [TP_LOCAL_HOLD_STATE_HELD]; omega
    have e2 : ¬ (hold = (TP_LOCAL_HOLD_STATE_PENDING_HOLD : Nat) ∨
        hold = (TP_LOCAL_HOLD_STATE_PENDING_UNHOLD : Nat)) := by
      simp only [TP_LOCAL_HOLD_STATE_PENDING_HOLD, TP_LOCAL_HOLD_STATE_PENDING_UNHOLD]; omega
    rw [if_neg e0, if_neg e1, if_neg e2]

/-- C26: the hold state the session stores never changes without a
notification. `ring_update_hold` with a target that is one of the four hold
states (0 to 3) and differs from the stored hold state emits exactly one
hold-state-changed notification, which carries the target and the reason
chosen, the reason passed in whenever that is not zero, and returns 0. With
a target that equals the stored hold state or is not one of the four hold
states it emits nothing and leaves the session as it was. In every case the
stored hold state and hold reason are after the call what they were before
it: the `g_object_set` meant to store them names properties the class does
not have. Every entry point of the session leaves the stored hold state as
it was, and so do joining a conference, the split request, setting the call
instance and sending a dial string, which leave the whole hold block
alone. -/
theorem C26_hold_change_notified (env : Env) (s : RingCallChannel) :
    (∀ hold reason : Int, 0 ≤ hold → hold ≤ 3 → uint32 hold ≠ s.hold.state →
      ∃ chosen : Int, (reason ≠ 0 → chosen = reason) ∧
        (ring_update_hold s hold reason).1.2
          = [Effect.hold_state_changed hold.toNat (uint32 chosen)] ∧
        (ring_update_hold s hold reason).2 = 0) ∧
    (∀ hold reason : Int, uint32 hold = s.hold.state ∨ hold < 0 ∨ 3 < hold →
      (ring_update_hold s hold reason).1 = (s, [])) ∧
    (∀ hold reason : Int,
      (ring_update_hold s hold reason).1.1.hold.state = s.hold.state ∧
      (ring_update_hold s hold reason).1.1.hold.reason = s.hold.reason) ∧
    (∀ (op : Op) (r : Step), step env s op = some r → r.1.hold.state = s.hold.state) ∧
    (∀ conference, (ring_member_channel_joined s conference).1.hold = s.hold) ∧
    (∀ has_members, (ring_member_channel_method_split s has_members).1.hold = s.hold) ∧
    (∀ ci, (ring_call_channel_set_call_instance s ci).1.hold = s.hold) ∧
    (∀ id dialstring duration pause,
      (ring_call_channel_send_dialstring env s id dialstring duration pause).1.1.hold
        = s.hold) := by
  refine ⟨fun hold reason h0 h3 hne => update_hold_valid s hold reason h0 h3 hne,
    fun hold reason h => update_hold_nothing s hold reason h,
    fun hold reason => (update_hold_frame s hold reason).2.2, ?_, ?_, ?_, ?_, ?_⟩
  · intro op r hs
    exact (step_frame env s op r hs).2.2
  · intro conference
    unfold ring_member_channel_joined
    cases hc : s.member_conference with
    | none => rfl
    | some old =>
      simp only
      split
      · rfl
      · simp only [Step.andThen, ring_conference_channel_emit_channel_removed]
        have h := left_core s
        simp only [core, Prod.mk.injEq] at h
        exact h.2.2
  · intro has_members
    unfold ring_member_channel_method_split
    split
    · split <;> rfl
    · rfl
  · intro ci
    have h := set_call_instance_core s ci
    simp only [core, Prod.mk.injEq] at h
    exact h.2.2
  · intro id dialstring duration pause
    unfold ring_call_channel_send_dialstring
    split
    · rfl
    · split <;> rfl

/-- C26 at work on the answered call, which is unheld: the target
pending-hold with reason requested is announced once, the target unheld
announces nothing and changes nothing, and the stored hold state is Unheld
after the announcement and after a reply to a hold request. -/
theorem C26_hold_change_notified_witness :
    (ring_update_hold (sessionActive 7 3) 2 1).1.2 = [Effect.hold_state_changed 2 1] ∧
    (ring_update_hold (sessionActive 7 3) 0 1).1 = (sessionActive 7 3, []) ∧
    (ring_update_hold (sessionActive 7 3) 2 1).1.1.hold.state = 0 ∧
    (response_to_hold (sessionActive 7 3) (some 21) none).1.hold.state = 0 := by
  have h := C26_hold_change_notified env0 (sessionActive 7 3)
  obtain ⟨chosen, hc, he, _⟩ := h.1 2 1 (by decide) (by decide) (by decide)
  rw [hc (by decide)] at he
  exact ⟨he, h.2.1 0 1 (Or.inl (by decide)), (h.2.2.1 2 1).1,
    h.2.2.2.1 (Op.hold_reply (some 21) none) _ rfl⟩

/-- C27: the call state `request_hold` checks is not the call state the
backend delivers. No backend state notification, and no sequence of entry
points that runs to its end, changes the stored call state. On a session
with a live backend handle that is unheld and whose stored call state is
not Active, after the backend has reported Active, `request_hold` for a
hold is rejected with NotAvailable and the text "Invalid call state", no
request is sent to the backend and the session stays as the notification
left it. -/
theorem C27_stored_call_state_never_updated (env : Env) (s : RingCallChannel) :
    (∀ state causetype cause,
      (ring_call_channel_update_state env s state causetype cause).1.state = s.state) ∧
    (∀ ops res, run env s ops = some res → res.1.state = s.state) ∧
    (∀ ci causetype cause backend, s.call_instance = some ci →
      s.hold.state = TP_LOCAL_HOLD_STATE_UNHELD → s.state ≠ ModemCallState.ACTIVE →
      request_hold env
          (ring_call_channel_update_state env s ModemCallState.ACTIVE causetype cause).1
          true backend
        = ((ring_call_channel_update_state env s ModemCallState.ACTIVE causetype cause).1,
            [Effect.return_error TpError.NOT_AVAILABLE
              ("Invalid call state " ++ env.state_name s.state)])) := by
  have hstate : ∀ state causetype cause,
      (ring_call_channel_update_state env s state causetype cause).1.state = s.state ∧
      (ring_call_channel_update_state env s state causetype cause).1.hold = s.hold := by
    intro state causetype cause
    have h := (update_state_origin env s state causetype cause).1
    simp only [core, Prod.mk.injEq] at h
    exact ⟨h.1, h.2.2⟩
  refine ⟨fun state causetype cause => (hstate state causetype cause).1,
    fun ops res hr => (run_frame env ops s res hr).1, ?_⟩
  intro ci causetype cause backend hci hh hs
  have h1 := (hstate ModemCallState.ACTIVE causetype cause).1
  have h2 := (hstate ModemCallState.ACTIVE causetype cause).2
  have h3 := (update_state_sameCall env s ModemCallState.ACTIVE causetype cause).1
  generalize (ring_call_channel_update_state env s ModemCallState.ACTIVE causetype cause).1
    = t at h1 h2 h3 ⊢
  rw [hci] at h3
  have hh0 : s.hold.state = 0 := hh
  simp [request_hold, h1, h2, h3, hh0, hs, TP_LOCAL_HOLD_STATE_HELD,
    TP_LOCAL_HOLD_STATE_PENDING_HOLD]

/-- C27 at the failing input: an outgoing call is created, the backend
delivers call 3 and reports it Active, and the hold request that follows is
rejected. -/
theorem C27_stored_call_state_never_updated_witness :
    (sessionDialing 7 none 3).call_instance = some 3 ∧
    (sessionDialing 7 none 3).state = ModemCallState.INVALID ∧
    request_hold env0
        (ring_call_channel_update_state env0 (sessionDialing 7 none 3)
          ModemCallState.ACTIVE 0 0).1 true (some 21)
      = (sessionActive 7 3,
          [Effect.return_error TpError.NOT_AVAILABLE "Invalid call state state"]) ∧
    run env0 (fresh true 7) holdAfterActiveOps
      = some (sessionActive 7 3,
          [Effect.request_dial "5551234" 0,
           Effect.set_state 5 7 2 "" "call state change to active",
           Effect.return_error TpError.NOT_AVAILABLE "Invalid call state state"]) ∧
    (sessionActive 7 3).state = ModemCallState.INVALID :=
  have h := C27_stored_call_state_never_updated env0 (sessionDialing 7 none 3)
  ⟨rfl, rfl, h.2.2 3 0 0 (some 21) rfl rfl (by decide), rfl,
    (h.2.1 [Op.update_state ModemCallState.ACTIVE 0 0] (sessionActive 7 3, _) rfl)⟩

/-- C30: no tone is ever started. `ring_call_channel_play_tone` and
`ring_call_channel_play_error_tone` return the session unchanged for every
tone, volume, duration, state and cause. From a freshly constructed
session the tone token `playing` is 0 after every sequence of backend state
notifications, and after every sequence of entry points (accept,
create-call replies with or without a call, hangup, close, backend
notifications, hold requests and replies, tone completions) that runs to
its end. -/
theorem C30_no_tone_is_started (env : Env) (s : RingCallChannel)
    (requested : Bool) (peer : TpHandle) :
    (∀ tone volume duration, ring_call_channel_play_tone env s tone volume duration = s) ∧
    (∀ state causetype cause,
      ring_call_channel_play_error_tone env s state causetype cause = s) ∧
    (∀ ns, (notify env (fresh requested peer) ns).1.playing = 0) ∧
    (∀ ops res, run env (fresh requested peer) ops = some res → res.1.playing = 0) := by
  refine ⟨fun tone volume duration => play_tone_eq env s tone volume duration,
    fun state causetype cause => play_error_tone_eq env s state causetype cause, ?_, ?_⟩
  · intro ns
    have h := notify_core env ns (fresh requested peer)
    simp only [core, Prod.mk.injEq] at h
    exact h.2.1
  · intro ops res hr
    rcases (run_frame env ops (fresh requested peer) res hr).2.1 with h | h
    · exact h
    · exact h

/-- C30 at work: an outgoing call rings at the peer and is released by the
network; the tone token is 0 afterwards, as it is after a failed
create-call request. -/
theorem C30_no_tone_is_started_witness :
    run env0 (fresh true 7) alertOps = some alertResult ∧
    alertResult.1.playing = 0 ∧
    ring_call_channel_play_tone env0 activeSession 70 0 0 = activeSession :=
  have h := C30_no_tone_is_started env0 activeSession true 7
  ⟨rfl, h.2.2.2 alertOps alertResult rfl, h.1 70 0 0⟩


/-! ## C3, C4 and C28: the hold state that is announced but not stored -/

theorem response_confirmed (s : RingCallChannel) (r : ModemRequest)
    (hc : s.control = some r) (hreq : s.hold.requested = TP_LOCAL_HOLD_STATE_HELD)
    (hst : s.hold.state = TP_LOCAL_HOLD_STATE_UNHELD) :
    response_to_hold s (some r) none =
      ({ s with
          control := none, requests := s.requests.map (fun q => q.erase r)
          hold := { s.hold with requested := uint8 (-1) } },
        [Effect.hold_state_changed TP_LOCAL_HOLD_STATE_HELD
          TP_LOCAL_HOLD_STATE_REASON_REQUESTED]) := by
  have h1 : s.hold.requested = 1 := hreq
  have h0 : s.hold.state = 0 := hst
  simp [response_to_hold, ring_call_channel_dequeue_request, Step.andThen, hc,
    ring_update_hold, set_hold_state_properties, uint32, h1, h0,
    TP_LOCAL_HOLD_STATE_UNHELD, TP_LOCAL_HOLD_STATE_HELD,
    TP_LOCAL_HOLD_STATE_REASON_REQUESTED]

/-- C3: a hold request is not accepted, and where it is accepted the
session never stores Pending_Hold or Held. After every sequence of entry
points that runs to its end on a freshly constructed session the stored
call state is the Invalid of construction and the stored hold state is
Unheld; on a live backend handle `request_hold(true)` is then rejected with
NotAvailable and the text "Invalid call state", whatever the backend has
reported: no backend request is issued and the session is unchanged. On a
session as the claim describes it (live backend handle, stored call state
Active, stored hold state Unheld, no control request outstanding)
`request_hold(true)` reports success, issues one backend hold request,
appends the request `r` to the request queue where there is one, keeps it
as the outstanding control request, records the target Held and announces
Pending_Hold with reason requested; when the backend confirms `r` without
error, Held with reason requested is announced, the target is cleared, no
control request is outstanding and `r` is removed from the queue. Through
both steps the stored hold state stays Unheld and the stored hold reason
stays what it was. -/
theorem C3_hold_request_not_stored (env : Env) :
    (∀ (requested : Bool) (peer : TpHandle) (ops : List Op) (res : Step),
      run env (fresh requested peer) ops = some res →
      res.1.state = ModemCallState.INVALID ∧
      res.1.hold.state = TP_LOCAL_HOLD_STATE_UNHELD ∧
      ∀ (ci : ModemCall) (backend : Option ModemRequest), res.1.call_instance = some ci →
        request_hold env res.1 true backend =
          (res.1, [Effect.return_error TpError.NOT_AVAILABLE
            ("Invalid call state " ++ env.state_name ModemCallState.INVALID)])) ∧
    (∀ (s : RingCallChannel) (ci : ModemCall) (r : ModemRequest),
      s.call_instance = some ci → s.state = ModemCallState.ACTIVE →
      s.hold.state = TP_LOCAL_HOLD_STATE_UNHELD → s.control = none →
      request_hold env s true (some r) =
        ({ s with
            control := some r, requests := s.requests.map (fun q => q ++ [r])
            hold := { s.hold with requested := TP_LOCAL_HOLD_STATE_HELD } },
          [Effect.return_from_request_hold, Effect.request_hold (some ci) true,
           Effect.hold_state_changed TP_LOCAL_HOLD_STATE_PENDING_HOLD
             TP_LOCAL_HOLD_STATE_REASON_REQUESTED]) ∧
      response_to_hold (request_hold env s true (some r)).1 (some r) none =
        ({ s with
            control := none
            requests := (s.requests.map (fun q => q ++ [r])).map (fun q => q.erase r)
            hold := { state := TP_LOCAL_HOLD_STATE_UNHELD, reason := s.hold.reason
                      requested := uint8 (-1) } },
          [Effect.hold_state_changed TP_LOCAL_HOLD_STATE_HELD
            TP_LOCAL_HOLD_STATE_REASON_REQUESTED])) := by
  refine ⟨?_, ?_⟩
  · intro requested peer ops res hr
    obtain ⟨hs, _, hh⟩ := run_frame env ops (fresh requested peer) res hr
    have hs2 : res.1.state = ModemCallState.INVALID := hs
    have hh2 : res.1.hold.state = TP_LOCAL_HOLD_STATE_UNHELD := hh
    refine ⟨hs2, hh2, ?_⟩
    intro ci backend hci
    unfold request_hold
    simp only [hci, if_true]
    rw [if_neg, if_pos (by rw [hs2]; decide), hs2]
    rw [hh2]
    decide
  · intro s ci r hci hst hh hc
    have hacc := request_hold_accepted env s true ci r hci
      (by rw [hh]; decide) (by rw [hh]; decide) hst hc
    simp only [if_true] at hacc
    refine ⟨hacc, ?_⟩
    rw [hacc]
    refine (response_confirmed _ r (by rfl) (by rfl) (by exact hh)).trans ?_
    simp [hh]

/-- C3 at the failing input: the outgoing call to peer 7 is created and the
backend reports call 3 Active; the hold request that follows is rejected.
On the active session, whose stored call state is Active, the request is
accepted and confirmed, and the stored hold state is Unheld after both. -/
theorem C3_hold_request_not_stored_witness :
    run env0 (fresh true 7) answeredOps
      = some (sessionActive 7 3,
          [Effect.request_dial "5551234" 0,
           Effect.set_state 5 7 2 "" "call state change to active"]) ∧
    request_hold env0 (sessionActive 7 3) true (some 21)
      = (sessionActive 7 3,
          [Effect.return_error TpError.NOT_AVAILABLE "Invalid call state state"]) ∧
    (request_hold env0 activeSession true (some 21)).1.hold
      = { state := 0, reason := 0, requested := 1 } ∧
    (response_to_hold (request_hold env0 activeSession true (some 21)).1 (some 21) none).1.hold
      = { state := 0, reason := 0, requested := 255 } ∧
    (response_to_hold (request_hold env0 activeSession true (some 21)).1 (some 21) none).2
      = [Effect.hold_state_changed 1 1] :=
  have h := C3_hold_request_not_stored env0
  have h1 := h.1 true 7 answeredOps (sessionActive 7 3, _) rfl
  have h2 := h.2 activeSession 3 21 rfl rfl rfl rfl
  ⟨rfl, h1.2.2 3 (some 21) rfl, congrArg (fun x => x.1.hold) h2.1,
    congrArg (fun x => x.1.hold) h2.2, congrArg Prod.snd h2.2⟩

end Ring
